import Mathlib

/-!
# Verification of the sidre data-store core (axom)

Shallow embedding of the View/Buffer/DataStore state machine of the axom
sidre component, translated from `src/src/axom/sidre/core/View.cpp` (the
newer variant) and `src/src/components/sidre/src/core/DataView.cpp` (the
older variant).  Buffer, Group and DataStore method bodies are not part of
the sources; where a claim depends on them they are modelled from the
specification and marked `Modelled from the spec:` in their doc comments.

Machine integers (`IndexType`, i.e. 64-bit signed) are modelled as `Int`;
none of the verified operations approach overflow.  Raw pointers are
modelled by presence flags or store indices (the spec's own design note
describes Views as holding a stable buffer id into an indexed slot table).
-/

namespace Sidre

/-- Element type tags.  `noType` plays the role of `NO_TYPE_ID` /
`CONDUIT_EMPTY_ID`; the concrete tags carry their byte widths below. -/
inductive TypeID where
  | noType
  | int8
  | int32
  | int64
  | float64
deriving DecidableEq, Repr

/-- Byte width of one element (`DataType::element_bytes` for the default
dtypes; the empty type has width 0). -/
def elementBytes : TypeID → Int
  | .noType => 0
  | .int8 => 1
  | .int32 => 4
  | .int64 => 8
  | .float64 => 8

/-- A conduit `DataType` as used by the sidre core: a type tag, an element
count, and byte-valued offset and stride. -/
structure DataType where
  id : TypeID
  numElems : Int
  offsetBytes : Int
  strideBytes : Int
deriving DecidableEq, Repr

/-- `DataType::is_empty()`: true when the type tag is the empty type. -/
def DataType.isEmpty (d : DataType) : Bool := d.id == .noType

/-- `conduit::DataType::default_dtype(type)`: one element, zero offset,
compact stride. -/
def defaultDType (t : TypeID) : DataType :=
  ⟨t, 1, 0, elementBytes t⟩

/-- Total byte extent of a described datatype (conduit strided bytes):
zero for zero or negative element counts, else `stride*(n-1) + elem_bytes`. -/
def stridedBytes (d : DataType) : Int :=
  if d.numElems ≤ 0 then 0 else d.strideBytes * (d.numElems - 1) + elementBytes d.id

/-- The five View states (`View::State`). -/
inductive State where
  | EMPTY
  | BUFFER
  | EXTERNAL
  | SCALAR
  | STRING
deriving DecidableEq, Repr

/-- `View::getStateStringName` (the `UNKNOWN` default arm is unreachable
for a value of the enum). -/
def stateStringName : State → String
  | .EMPTY => "EMPTY"
  | .BUFFER => "BUFFER"
  | .EXTERNAL => "EXTERNAL"
  | .SCALAR => "SCALAR"
  | .STRING => "STRING"

/-- `View::getStateId`: string to state, unknown strings map to `EMPTY`. -/
def getStateId (name : String) : State :=
  if name == "EMPTY" then .EMPTY
  else if name == "BUFFER" then .BUFFER
  else if name == "EXTERNAL" then .EXTERNAL
  else if name == "SCALAR" then .SCALAR
  else if name == "STRING" then .STRING
  else .EMPTY

/-- The observable state of a `View`: name, state tag, description
(`m_schema`), shape vector (`m_shape`), applied flag (`m_is_applied`),
buffer attachment (`m_data_buffer`, as a store index per the spec's
arena design note), and whether `m_external_ptr` is non-null. -/
structure View where
  name : String
  state : State
  schema : DataType
  shape : List Int
  is_applied : Bool
  data_buffer : Option Nat
  external_ptr : Bool
deriving DecidableEq, Repr

/-- `View::isDescribed()`: the schema's dtype is non-empty. -/
def View.isDescribed (v : View) : Bool := !v.schema.isEmpty

/-- `View::getTotalBytes()`: total byte extent of the description. -/
def View.getTotalBytes (v : View) : Int := stridedBytes v.schema

/-- `View::getBytesPerElement()`: byte width of the described element type. -/
def View.getBytesPerElement (v : View) : Int := elementBytes v.schema.id

/-- A fresh view as built by the private constructor `View::View(name)`:
EMPTY, undescribed, unapplied, no buffer, no external pointer. -/
def freshView (nm : String) : View :=
  ⟨nm, .EMPTY, ⟨.noType, 0, 0, 0⟩, [], false, none, false⟩

/-- Modelled from the spec: a `Buffer` is an owned block described by an
element type tag and count, with an allocation flag and the back-reference
list of attached View identities (`Buffer.cpp` is not among the sources;
attributes follow spec section 3). -/
structure Buffer where
  type : TypeID
  num_elems : Int
  allocated : Bool
  views : List Nat
deriving DecidableEq, Repr

/-- Modelled from the spec: the buffer's total byte extent is its described
element count times the element width (the description survives
deallocation; deallocate leaves "a valid, empty, reusable handle"). -/
def Buffer.getTotalBytes (b : Buffer) : Int := b.num_elems * elementBytes b.type

/-- `Buffer::getNumViews()`: number of attached views. -/
def Buffer.getNumViews (b : Buffer) : Nat := b.views.length

/-- `Buffer::isAllocated()`. -/
def Buffer.isAllocated (b : Buffer) : Bool := b.allocated

/-- Modelled from the spec: `Buffer::allocate(type, count)` "fails silently
(logs, no-op) if already allocated or type is invalid/count negative;
otherwise reserves count elements of type". -/
def Buffer.allocate (b : Buffer) (t : TypeID) (n : Int) : Buffer :=
  if b.allocated || t == .noType || n < 0 then b
  else { b with type := t, num_elems := n, allocated := true }

/-- Modelled from the spec: `Buffer::reallocate(count)` grows or shrinks the
capacity of an allocated buffer; a no-op when never allocated (no known
type) or the count is negative. -/
def Buffer.reallocate (b : Buffer) (n : Int) : Buffer :=
  if !b.allocated || n < 0 then b
  else { b with num_elems := n }

/-- Modelled from the spec: `Buffer::deallocate()` releases the memory; the
buffer remains a valid reusable handle and keeps its type/count description. -/
def Buffer.deallocate (b : Buffer) : Buffer := { b with allocated := false }

/-! ## Association-list store

The DataStore owns Buffers and Views in indexed slots; we use simple
association lists keyed by natural indices. -/

/-- First-match lookup in an association list. -/
def lookupK {α : Type} (l : List (Nat × α)) (k : Nat) : Option α :=
  match l with
  | [] => none
  | p :: rest => if p.1 = k then some p.2 else lookupK rest k

/-- Update every entry with the given key by `f`. -/
def updEntry {α : Type} (l : List (Nat × α)) (k : Nat) (f : α → α) : List (Nat × α) :=
  l.map (fun p => if p.1 = k then (p.1, f p.2) else p)

/-- The DataStore as the canonical owner of Buffers and Views, both held in
indexed slots (spec sections 2 and 3). -/
structure DataStore where
  buffers : List (Nat × Buffer)
  views : List (Nat × View)
deriving DecidableEq, Repr

/-- `DataStore::getBuffer(id)`. -/
def DataStore.getBuffer (s : DataStore) (bid : Nat) : Option Buffer :=
  lookupK s.buffers bid

/-- Look up a view by its identity. -/
def DataStore.getView (s : DataStore) (vid : Nat) : Option View :=
  lookupK s.views vid

def DataStore.updView (s : DataStore) (vid : Nat) (f : View → View) : DataStore :=
  { s with views := updEntry s.views vid f }

def DataStore.updBuffer (s : DataStore) (bid : Nat) (f : Buffer → Buffer) : DataStore :=
  { s with buffers := updEntry s.buffers bid f }

/-- `DataStore::destroyBuffer`: remove the buffer's slot. -/
def DataStore.destroyBuffer (s : DataStore) (bid : Nat) : DataStore :=
  { s with buffers := s.buffers.filter (fun p => p.1 ≠ bid) }

/-- Modelled from the spec: the store assigns a free (unused) index to a
newly created Buffer; we model freshness (one past the largest key), not
the slot-reuse policy. -/
def createBufferIndex (s : DataStore) : Nat :=
  s.buffers.foldr (fun p m => max (p.1 + 1) m) 0

/-- `DataStore::createBuffer()`: a new, undescribed, unallocated buffer
with no attached views, at a fresh index. -/
def createBufferOp (s : DataStore) : DataStore × Nat :=
  let bid := createBufferIndex s
  ({ s with buffers := s.buffers ++ [(bid, ⟨.noType, 0, false, []⟩)] }, bid)

/-! ## View description (private `describe` helpers, View.cpp:814-891) -/

/-- `View::describe(type, num_elems)` followed by `describeShape()`:
default dtype with the element count, one-dimensional shape, applied flag
cleared. -/
def View.describeT (v : View) (t : TypeID) (n : Int) : View :=
  { v with schema := { defaultDType t with numElems := n },
           shape := [n],
           is_applied := false }

/-- `View::describe(dtype)` followed by `describeShape()`. -/
def View.describeD (v : View) (d : DataType) : View :=
  { v with schema := d, shape := [d.numElems], is_applied := false }

/-! ## Validity predicates (View.cpp:943-1031, DataView.cpp:921-996) -/

/-- `View::isApplyValid()` (the newer variant, View.cpp:984): requires a
description; EMPTY/STRING/SCALAR are invalid; EXTERNAL is valid when
described; BUFFER requires `0 <= getTotalBytes()` and that the extent fits
in the buffer.  The buffer argument is the resolution of `m_data_buffer`;
a BUFFER view with no resolvable buffer would dereference null in the
source and is treated as invalid. -/
def View.isApplyValidWith (v : View) (b : Option Buffer) : Bool :=
  if !v.isDescribed then false
  else
    match v.state with
    | .EMPTY | .STRING | .SCALAR => false
    | .EXTERNAL => v.isDescribed
    | .BUFFER =>
      match b with
      | some bb => decide (0 ≤ v.getTotalBytes) && decide (v.getTotalBytes ≤ bb.getTotalBytes)
      | none => false

/-- `DataView::isApplyValid()` (the older variant, DataView.cpp:958):
identical except the BUFFER case requires `0 < getTotalBytes()`. -/
def DataView_isApplyValidWith (v : View) (b : Option Buffer) : Bool :=
  if !v.isDescribed then false
  else
    match v.state with
    | .EMPTY | .STRING | .SCALAR => false
    | .EXTERNAL => v.isDescribed
    | .BUFFER =>
      match b with
      | some bb => decide (0 < v.getTotalBytes) && decide (v.getTotalBytes ≤ bb.getTotalBytes)
      | none => false

/-- Resolve a view's attached buffer in the store. -/
def DataStore.bufferOf (s : DataStore) (v : View) : Option Buffer :=
  v.data_buffer.bind s.getBuffer

/-- `View::isApplyValid()` evaluated against the store. -/
def isApplyValid (s : DataStore) (v : View) : Bool :=
  v.isApplyValidWith (s.bufferOf v)

/-- `View::isAllocateValid()` (View.cpp:943): EMPTY requires a description;
STRING/SCALAR/EXTERNAL are invalid; BUFFER requires a description and that
the attached buffer has exactly one attached view. -/
def isAllocateValid (s : DataStore) (v : View) : Bool :=
  match v.state with
  | .EMPTY => v.isDescribed
  | .STRING | .SCALAR | .EXTERNAL => false
  | .BUFFER =>
    v.isDescribed &&
      (match s.bufferOf v with
       | some b => b.getNumViews == 1
       | none => false)

/-! ## View operations as store transformers (View.cpp) -/

/-- `View::apply()` (View.cpp:313): a guarded no-op when `isApplyValid()`
fails; otherwise binds the schema onto the data pointer and sets the
applied flag. -/
def applyOp (s : DataStore) (vid : Nat) : DataStore :=
  match s.getView vid with
  | none => s
  | some v =>
    if !(isApplyValid s v) then s
    else s.updView vid (fun w => { w with is_applied := true })

/-- `View::allocate()` (View.cpp:79): when valid, an EMPTY view first gets a
fresh buffer from the store and transitions to BUFFER; then the buffer is
allocated with the view's described type and count and `apply()` runs. -/
def allocateOp (s : DataStore) (vid : Nat) : DataStore :=
  match s.getView vid with
  | none => s
  | some v =>
    if !(isAllocateValid s v) then s
    else
      let t := v.schema.id
      let n := v.schema.numElems
      if v.state == .EMPTY then
        let bid := createBufferIndex s
        let b := (Buffer.mk .noType 0 false [vid]).allocate t n
        let s1 : DataStore :=
          { buffers := s.buffers ++ [(bid, b)],
            views := updEntry s.views vid
              (fun w => { w with data_buffer := some bid, state := .BUFFER }) }
        applyOp s1 vid
      else
        match v.data_buffer with
        | none => s
        | some bid => applyOp (s.updBuffer bid (fun b => b.allocate t n)) vid

/-- `View::allocate(type, num_elems)` (View.cpp:107): rejects an empty type
or negative count up front, otherwise describes and allocates. -/
def allocateTN (s : DataStore) (vid : Nat) (t : TypeID) (n : Int) : DataStore :=
  if t == .noType || n < 0 then s
  else allocateOp (s.updView vid (fun v => v.describeT t n)) vid

/-- `View::deallocate()` (View.cpp:191): no-op unless `isAllocateValid()`;
then deallocates the attached buffer when there is one. -/
def deallocateOp (s : DataStore) (vid : Nat) : DataStore :=
  match s.getView vid with
  | none => s
  | some v =>
    if !(isAllocateValid s v) then s
    else
      match v.data_buffer with
      | some bid => s.updBuffer bid Buffer.deallocate
      | none => s

/-- `View::reallocate(num_elems)` (View.cpp:155). -/
def reallocateOp (s : DataStore) (vid : Nat) (n : Int) : DataStore :=
  match s.getView vid with
  | none => s
  | some v =>
    let vtype := v.schema.id
    if n < 0 then s
    else if !(isAllocateValid s v) then s
    else if v.state == .EMPTY then allocateTN s vid vtype n
    else
      match v.data_buffer with
      | none => s
      | some bid =>
        match s.getBuffer bid with
        | none => s
        | some b =>
          if b.isAllocated then
            applyOp ((s.updView vid (fun w => w.describeT vtype n)).updBuffer bid
              (fun bb => bb.reallocate n)) vid
          else allocateTN s vid vtype n

/-- `View::detachBuffer()` (View.cpp:293) together with the modelled
`Buffer::detachFromView`: remove the back-reference and reset the view to
EMPTY (spec transition `attachBuffer(null)`: BUFFER to EMPTY).  Returns the
detached buffer's index. -/
def detachBufferOp (s : DataStore) (vid : Nat) : DataStore × Option Nat :=
  match s.getView vid with
  | none => (s, none)
  | some v =>
    if v.state == .BUFFER then
      match v.data_buffer with
      | some bid =>
        let s1 := s.updBuffer bid (fun b => { b with views := b.views.filter (· ≠ vid) })
        let s2 := s1.updView vid
          (fun w => { w with data_buffer := none, state := .EMPTY, is_applied := false })
        (s2, some bid)
      | none => (s, none)
    else (s, none)

/-- The detach arm of `View::attachBuffer` (View.cpp:261-268): detach, then
destroy the old buffer exactly when its view count reached zero. -/
def detachAndMaybeDestroy (s : DataStore) (vid : Nat) : DataStore :=
  match detachBufferOp s vid with
  | (s1, some bid) =>
    match s1.getBuffer bid with
    | some b => if b.getNumViews == 0 then s1.destroyBuffer bid else s1
    | none => s1
  | (s1, none) => s1

/-- The attach arm of `View::attachBuffer` (View.cpp:269-281): link the
buffer, record the back-reference, and apply when the view is described and
the buffer allocated.  A buffer pointer that is not store-resident is
outside the model and left as the identity. -/
def attachToEmptyView (s : DataStore) (vid bid : Nat) : DataStore :=
  match s.getBuffer bid with
  | none => s
  | some _ =>
    let s1 := (s.updBuffer bid (fun b => { b with views := b.views ++ [vid] })).updView
      vid (fun w => { w with data_buffer := some bid, state := .BUFFER })
    match s1.getView vid, s1.getBuffer bid with
    | some v2, some b2 =>
      if v2.isDescribed && b2.isAllocated then applyOp s1 vid else s1
    | _, _ => s1

/-- `View::attachBuffer(buff)` (View.cpp:259): on a BUFFER view a null
argument detaches and destroys the buffer exactly when its view count
reached zero; on an EMPTY view a non-null argument attaches and, when the
view is described and the buffer allocated, applies. -/
def attachBufferOp (s : DataStore) (vid : Nat) (buff : Option Nat) : DataStore :=
  match s.getView vid with
  | none => s
  | some v =>
    if v.state == .BUFFER && buff == none then
      detachAndMaybeDestroy s vid
    else if v.state == .EMPTY && buff.isSome then
      match buff with
      | none => s
      | some bid => attachToEmptyView s vid bid
    else s

/-- `View::setExternalDataPtr(ptr)` (View.cpp:516); the pointer is modelled
by whether it is non-null. -/
def setExternalDataPtrOp (s : DataStore) (vid : Nat) (ptr : Bool) : DataStore :=
  match s.getView vid with
  | none => s
  | some v =>
    if v.state == .EMPTY || v.state == .EXTERNAL then
      if !ptr then
        s.updView vid (fun w =>
          { w with is_applied := false, external_ptr := false, state := .EMPTY })
      else
        let s1 := s.updView vid (fun w => { w with external_ptr := true, state := .EXTERNAL })
        if v.isDescribed then applyOp s1 vid else s1
    else s

/-- `View::apply(num_elems, offset, stride)` (View.cpp:351): negative count
is rejected up front; otherwise the current dtype (or the attached buffer's
default dtype when the view is undescribed) gets the new count and the
offset and stride converted from elements to bytes, the view is
re-described, and `apply()` runs.  An undescribed view with no buffer
dereferences null in the source; that case is left as the identity and
never relied on. -/
def applyNOS (s : DataStore) (vid : Nat) (num_elems offset stride : Int) : DataStore :=
  match s.getView vid with
  | none => s
  | some v =>
    if num_elems < 0 then s
    else
      let base : Option DataType :=
        if !v.schema.isEmpty then some v.schema
        else (s.bufferOf v).map (fun b => defaultDType b.type)
      match base with
      | none => s
      | some d0 =>
        let w := elementBytes d0.id
        let d : DataType :=
          { d0 with numElems := num_elems, offsetBytes := offset * w, strideBytes := stride * w }
        applyOp (s.updView vid (fun x => x.describeD d)) vid

/-- `View::apply(type, num_elems, offset, stride)` (View.cpp:387). -/
def applyTNOS (s : DataStore) (vid : Nat) (t : TypeID) (num_elems offset stride : Int) :
    DataStore :=
  match s.getView vid with
  | none => s
  | some _ =>
    if t == .noType || num_elems < 0 then s
    else
      let w := elementBytes t
      let d : DataType :=
        { defaultDType t with
          numElems := num_elems, offsetBytes := offset * w, strideBytes := stride * w }
      applyOp (s.updView vid (fun x => x.describeD d)) vid

/-- `View::isAllocated()` (View.cpp:560) evaluated against the store. -/
def isAllocatedQ (s : DataStore) (vid : Nat) : Bool :=
  match s.getView vid with
  | none => false
  | some v =>
    match v.state with
    | .EMPTY => false
    | .BUFFER =>
      v.isDescribed &&
        (match s.bufferOf v with
         | some b => b.isAllocated
         | none => false)
    | .EXTERNAL | .STRING | .SCALAR => true

/-! ## Offset and stride accessors (View.cpp:626-688)

The "fail with message" collaborator has two flavors (spec section 6):
warn-and-continue (`SLIC_WARNING`, `SLIC_CHECK*`) and abort-the-process
(`SLIC_ERROR*`, `SLIC_ASSERT*`).  `getOffset`/`getStride` fire
`SLIC_ERROR_IF`, the abort flavor, when the stored byte value is not an
exact multiple of the element width; the result type records which flavor
fired instead of returning a value. -/

inductive SlicLevel where
  | warning
  | fatal
deriving DecidableEq, Repr

/-- Result of an accessor that may fire the "fail with message"
collaborator: either a value, or the flavor of diagnostic that fired. -/
inductive SlicResult where
  | ok (val : Int)
  | fail (level : SlicLevel)
deriving DecidableEq, Repr

/-- `View::getOffset()`: 0 when undescribed; otherwise the byte offset
divided by the element width, with `SLIC_ERROR_IF` (abort mode) when the
division is not exact. -/
def View.getOffset (v : View) : SlicResult :=
  if v.isDescribed then
    let offset := v.schema.offsetBytes
    let w := v.getBytesPerElement
    if w ≠ 0 then
      if offset % w ≠ 0 then .fail .fatal
      else .ok (offset / w)
    else .ok offset
  else .ok 0

/-- `View::getStride()`: 1 when undescribed; otherwise the byte stride
divided by the element width, with `SLIC_ERROR_IF` (abort mode) when the
division is not exact. -/
def View.getStride (v : View) : SlicResult :=
  if v.isDescribed then
    let stride := v.schema.strideBytes
    let w := v.getBytesPerElement
    if w ≠ 0 then
      if stride % w ≠ 0 then .fail .fatal
      else .ok (stride / w)
    else .ok stride
  else .ok 1

/-! ## Direct Buffer operations at the store level -/

/-- `Buffer::allocate(type, count)` invoked directly on a store-owned buffer. -/
def bufferAllocateOp (s : DataStore) (bid : Nat) (t : TypeID) (n : Int) : DataStore :=
  s.updBuffer bid (fun b => b.allocate t n)

/-- `Buffer::reallocate(count)` invoked directly on a store-owned buffer. -/
def bufferReallocateOp (s : DataStore) (bid : Nat) (n : Int) : DataStore :=
  s.updBuffer bid (fun b => b.reallocate n)

/-- `Buffer::deallocate()` invoked directly on a store-owned buffer. -/
def bufferDeallocateOp (s : DataStore) (bid : Nat) : DataStore :=
  s.updBuffer bid Buffer.deallocate

/-! ## Export / import (View.cpp:1116-1260)

The persisted per-View document node.  The fields mirror the keys the
source writes: `state`, optional `schema`, optional `shape` (only for more
than one dimension), `buffer_id` and `is_applied` (BUFFER state only), and
`value` (SCALAR/STRING only, carried as the value node's schema).  There is
no field for the external pointer: the source never writes one. -/
structure ExportNode where
  state : String
  buffer_id : Option Nat
  is_applied : Option Bool
  schema : Option DataType
  shape : Option (List Int)
  value : Option DataType
deriving DecidableEq, Repr

def emptyNode : ExportNode := ⟨"", none, none, none, none, none⟩

/-- Insert into the running set of referenced buffer indices
(`buffer_indices.insert(buffer_id)`). -/
def insertIdx (k : Nat) (l : List Nat) : List Nat :=
  if k ∈ l then l else l ++ [k]

/-- `View::exportDescription` (View.cpp:1230): writes the schema, and the
shape only when there is more than one dimension. -/
def View.exportDescription (v : View) (n : ExportNode) : ExportNode :=
  let n1 := { n with schema := some v.schema }
  if v.shape.length > 1 then { n1 with shape := some v.shape } else n1

/-- `View::exportTo` (View.cpp:1116): writes the state tag and, per state,
the description, buffer id and applied flag, or inline value; BUFFER state
records the buffer index into the referenced set; an undescribed EXTERNAL
view is written out as an EMPTY view.  A BUFFER view whose buffer pointer
is null would dereference null in the source; that case returns the bare
node and is never relied on. -/
def View.exportTo (v : View) (buffer_indices : List Nat) : ExportNode × List Nat :=
  let n0 := { emptyNode with state := stateStringName v.state }
  match v.state with
  | .EMPTY =>
    (if v.isDescribed then v.exportDescription n0 else n0, buffer_indices)
  | .BUFFER =>
    match v.data_buffer with
    | some bid =>
      let n1 := { n0 with buffer_id := some bid }
      let n2 := if v.isDescribed then v.exportDescription n1 else n1
      ({ n2 with is_applied := some v.is_applied }, insertIdx bid buffer_indices)
    | none => (n0, buffer_indices)
  | .EXTERNAL =>
    if v.isDescribed then (v.exportDescription n0, buffer_indices)
    else ({ n0 with state := stateStringName .EMPTY }, buffer_indices)
  | .SCALAR | .STRING =>
    ({ n0 with value := some v.schema }, buffer_indices)

/-- `View::importDescription` (View.cpp:1246): if the node has a schema,
re-describe from it and overwrite the shape when one was saved; otherwise
leave the view untouched. -/
def View.importDescription (v : View) (n : ExportNode) : View :=
  match n.schema with
  | some d =>
    let v1 := v.describeD d
    match n.shape with
    | some sh => { v1 with shape := sh }
    | none => v1
  | none => v

/-- The BUFFER arm of `View::importFrom` (View.cpp:1180-1203), entered with
the view already reset to EMPTY: resolve the old buffer id through the
map, import the description, attach the resolved buffer and re-apply when the
saved flag was set.  A missing id or map entry trips `SLIC_ASSERT` in the
source (then `map::at` throws); those cases stop after importing the
description and are never relied on. -/
def importBufferCase (s : DataStore) (vid : Nat) (n : ExportNode)
    (bmap : Nat → Option Nat) : DataStore :=
  match n.buffer_id with
  | none => s.updView vid (fun v => v.importDescription n)
  | some old_id =>
    match bmap old_id with
    | none => s.updView vid (fun v => v.importDescription n)
    | some new_id =>
      let s3 := attachBufferOp (s.updView vid (fun v => v.importDescription n)) vid
        (some new_id)
      if n.is_applied.getD false then applyOp s3 vid else s3

/-- `View::importFrom` (View.cpp:1169): restores the state tag; a BUFFER
node is rebuilt through the public API (see `importBufferCase`); EMPTY and
EXTERNAL nodes restore the description; SCALAR/STRING nodes restore the
inline value and set the applied flag. -/
def importFromOp (s : DataStore) (vid : Nat) (n : ExportNode) (bmap : Nat → Option Nat) :
    DataStore :=
  match s.getView vid with
  | none => s
  | some _ =>
    let st := getStateId n.state
    let s0 := s.updView vid (fun v => { v with state := st })
    match st with
    | .EMPTY => s0.updView vid (fun v => v.importDescription n)
    | .BUFFER =>
      importBufferCase (s0.updView vid (fun v => { v with state := .EMPTY })) vid n bmap
    | .EXTERNAL => s0.updView vid (fun v => v.importDescription n)
    | .SCALAR | .STRING =>
      s0.updView vid (fun v =>
        { v with schema := n.value.getD v.schema, is_applied := true })

/-- Modelled from the spec (section 4.4 step 1): the Group export walks all
Views, threading the referenced-buffer-index set through each
`View::exportTo`. -/
def exportViews (vs : List View) (l0 : List Nat) : List ExportNode × List Nat :=
  vs.foldl (fun acc v =>
    let (n, idxs) := v.exportTo acc.2
    (acc.1 ++ [n], idxs)) ([], l0)

/-- Modelled from the spec (section 4.4 step 2): after the tree walk only
Buffers whose indices appear in the referenced set are exported. -/
def exportedBuffers (s : DataStore) (idxs : List Nat) : List (Nat × Buffer) :=
  s.buffers.filter (fun p => p.1 ∈ idxs)

/-! ## Group naming model (for `View::rename`, View.cpp:1325)

Modelled from the spec where `Group.cpp` is not among the sources: the
parent Group holds name-unique child maps for Groups and Views and a path
delimiter; `hasGroup`/`hasView` are map lookups, `detachView`/`attachView`
remove and insert a child View entry by name. -/
structure Group where
  path_delimiter : Char
  group_names : List String
  view_names : List String
deriving DecidableEq, Repr

def Group.hasGroup (g : Group) (nm : String) : Bool := g.group_names.contains nm

def Group.hasView (g : Group) (nm : String) : Bool := g.view_names.contains nm

def Group.detachView (g : Group) (nm : String) : Group :=
  { g with view_names := g.view_names.erase nm }

def Group.attachView (g : Group) (nm : String) : Group :=
  { g with view_names := g.view_names ++ [nm] }

/-- `View::rename(new_name)` (View.cpp:1325): when the new name differs
from the current one it must be non-empty, contain no path delimiter, and
collide with no sibling Group or View; then the view is detached, renamed
and re-attached.  Returns the flag together with the resulting view and
parent. -/
def View.rename (v : View) (parent : Group) (new_name : String) : Bool × View × Group :=
  if new_name == v.name then (true, v, parent)
  else if new_name.isEmpty then (false, v, parent)
  else if new_name.data.contains parent.path_delimiter then (false, v, parent)
  else if parent.hasGroup new_name || parent.hasView new_name then (false, v, parent)
  else
    let g1 := parent.detachView v.name
    let v1 := { v with name := new_name }
    (true, v1, g1.attachView new_name)

/-- The effect of `View::apply()` (newer variant) on the view itself, given
its resolved buffer: sets the applied flag exactly when
`View::isApplyValid` holds, otherwise a no-op. -/
def applyViewNew (v : View) (b : Option Buffer) : View :=
  if v.isApplyValidWith b then { v with is_applied := true } else v

/-- The effect of `DataView::apply()` (older variant) on the view itself:
sets the applied flag exactly when `DataView::isApplyValid` holds. -/
def applyViewOld (v : View) (b : Option Buffer) : View :=
  if DataView_isApplyValidWith v b then { v with is_applied := true } else v

/-- The C2 invariant over a store: every applied BUFFER-state view's total
byte extent fits within its attached buffer's total bytes. -/
def bytesInv (s : DataStore) : Bool :=
  s.views.all (fun p =>
    !(p.2.state == .BUFFER && p.2.is_applied) ||
    (match s.bufferOf p.2 with
     | some b => decide (p.2.getTotalBytes ≤ b.getTotalBytes)
     | none => false))

/-- The fields of a view that `apply(num_elems, offset, stride)` never
touches: the state tag, the buffer attachment, the name and the external
pointer. -/
def viewSkeleton (v : View) : State × Option Nat × String × Bool :=
  (v.state, v.data_buffer, v.name, v.external_ptr)

/-! ## Helper lemmas about the store operations -/

theorem lookupK_cons {α : Type} (p : Nat × α) (rest : List (Nat × α)) (k : Nat) :
    lookupK (p :: rest) k = if p.1 = k then some p.2 else lookupK rest k := rfl

theorem updEntry_cons {α : Type} (p : Nat × α) (rest : List (Nat × α)) (k : Nat)
    (f : α → α) :
    updEntry (p :: rest) k f =
      (if p.1 = k then (p.1, f p.2) else p) :: updEntry rest k f := rfl

theorem lookupK_updEntry_self {α : Type} (l : List (Nat × α)) (k : Nat) (f : α → α) :
    lookupK (updEntry l k f) k = (lookupK l k).map f := by
  induction l with
  | nil => rfl
  | cons p rest ih =>
    rw [updEntry_cons]
    by_cases h : p.1 = k
    · rw [if_pos h, lookupK_cons, lookupK_cons, if_pos h, if_pos h, Option.map_some']
    · rw [if_neg h, lookupK_cons, lookupK_cons, if_neg h, if_neg h, ih]

theorem lookupK_updEntry_ne {α : Type} (l : List (Nat × α)) (k k' : Nat) (f : α → α)
    (h : k' ≠ k) : lookupK (updEntry l k f) k' = lookupK l k' := by
  induction l with
  | nil => rfl
  | cons p rest ih =>
    rw [updEntry_cons]
    by_cases hp : p.1 = k
    · have hp' : ¬ p.1 = k' := by omega
      rw [if_pos hp, lookupK_cons, lookupK_cons]
      show (if p.1 = k' then _ else _) = _
      rw [if_neg hp', if_neg hp', ih]
    · by_cases hp' : p.1 = k'
      · rw [if_neg hp, lookupK_cons, lookupK_cons, if_pos hp', if_pos hp']
      · rw [if_neg hp, lookupK_cons, lookupK_cons, if_neg hp', if_neg hp', ih]

theorem lookupK_filter_ne {α : Type} (l : List (Nat × α)) (k k' : Nat)
    (h : k' ≠ k) :
    lookupK (l.filter (fun p => p.1 ≠ k)) k' = lookupK l k' := by
  induction l with
  | nil => rfl
  | cons p rest ih =>
    by_cases hp : p.1 = k
    · have hne : ¬ p.1 = k' := by omega
      have : (p :: rest).filter (fun p => p.1 ≠ k) = rest.filter (fun p => p.1 ≠ k) := by
        simp [List.filter_cons, hp]
      rw [this, ih, lookupK, if_neg hne]
    · have : (p :: rest).filter (fun p => p.1 ≠ k) = p :: rest.filter (fun p => p.1 ≠ k) := by
        simp [List.filter_cons, hp]
      rw [this]
      by_cases hp' : p.1 = k'
      · simp only [lookupK, if_pos hp']
      · simp only [lookupK, if_neg hp', ih]

theorem lookupK_filter_self {α : Type} (l : List (Nat × α)) (k : Nat) :
    lookupK (l.filter (fun p => p.1 ≠ k)) k = none := by
  induction l with
  | nil => rfl
  | cons p rest ih =>
    by_cases hp : p.1 = k
    · have : (p :: rest).filter (fun p => p.1 ≠ k) = rest.filter (fun p => p.1 ≠ k) := by
        simp [List.filter_cons, hp]
      rw [this, ih]
    · have : (p :: rest).filter (fun p => p.1 ≠ k) = p :: rest.filter (fun p => p.1 ≠ k) := by
        simp [List.filter_cons, hp]
      rw [this, lookupK, if_neg hp, ih]

theorem lookupK_append {α : Type} (l₁ l₂ : List (Nat × α)) (k : Nat)
    (h : lookupK l₁ k = none) : lookupK (l₁ ++ l₂) k = lookupK l₂ k := by
  induction l₁ with
  | nil => rfl
  | cons p rest ih =>
    by_cases hp : p.1 = k
    · simp [lookupK, hp] at h
    · simp [lookupK, hp] at h ⊢
      exact ih h

theorem createBufferIndex_fresh (s : DataStore) :
    lookupK s.buffers (createBufferIndex s) = none := by
  have key : ∀ (l : List (Nat × Buffer)) (m : Nat),
      (∀ p ∈ l, p.1 < m) → lookupK l m = none := by
    intro l
    induction l with
    | nil => intro m _; rfl
    | cons p rest ih =>
      intro m h
      have hp := h p (by simp)
      have hne : ¬ p.1 = m := by omega
      rw [lookupK, if_neg hne]
      exact ih m (fun q hq => h q (by simp [hq]))
  apply key
  have grow : ∀ (l : List (Nat × Buffer)) (p : Nat × Buffer), p ∈ l →
      p.1 < l.foldr (fun q m => max (q.1 + 1) m) 0 := by
    intro l
    induction l with
    | nil => intro p h; simp at h
    | cons q rest ih =>
      intro p h
      rw [List.foldr_cons]
      rcases List.mem_cons.mp h with h1 | h2
      · subst h1
        exact lt_of_lt_of_le (Nat.lt_succ_self _) (le_max_left _ _)
      · exact lt_of_lt_of_le (ih p h2) (le_max_right _ _)
  intro p hp
  exact grow s.buffers p hp

theorem getView_updView_self (s : DataStore) (vid : Nat) (f : View → View) :
    (s.updView vid f).getView vid = (s.getView vid).map f :=
  lookupK_updEntry_self s.views vid f

theorem getView_updView_ne (s : DataStore) (vid k : Nat) (f : View → View)
    (h : k ≠ vid) : (s.updView vid f).getView k = s.getView k :=
  lookupK_updEntry_ne s.views vid k f h

theorem getBuffer_updView (s : DataStore) (vid : Nat) (f : View → View) (bid : Nat) :
    (s.updView vid f).getBuffer bid = s.getBuffer bid := rfl

theorem getView_updBuffer (s : DataStore) (bid : Nat) (f : Buffer → Buffer) (k : Nat) :
    (s.updBuffer bid f).getView k = s.getView k := rfl

theorem getBuffer_updBuffer_self (s : DataStore) (bid : Nat) (f : Buffer → Buffer) :
    (s.updBuffer bid f).getBuffer bid = (s.getBuffer bid).map f :=
  lookupK_updEntry_self s.buffers bid f

theorem getBuffer_updBuffer_ne (s : DataStore) (bid k : Nat) (f : Buffer → Buffer)
    (h : k ≠ bid) : (s.updBuffer bid f).getBuffer k = s.getBuffer k :=
  lookupK_updEntry_ne s.buffers bid k f h

/-- `apply()` either leaves the view untouched (invalid) or only sets its
applied flag. -/
theorem applyOp_getView (s : DataStore) (vid : Nat) :
    (applyOp s vid).getView vid =
      (s.getView vid).map
        (fun v => if isApplyValid s v then { v with is_applied := true } else v) := by
  unfold applyOp
  cases h : s.getView vid with
  | none => simp [h]
  | some v =>
    by_cases hv : isApplyValid s v
    · simp [h, hv, getView_updView_self]
    · simp [h, hv]

theorem applyOp_getView_ne (s : DataStore) (vid k : Nat) (h : k ≠ vid) :
    (applyOp s vid).getView k = s.getView k := by
  unfold applyOp
  cases hm : s.getView vid with
  | none => rfl
  | some v =>
    by_cases hv : isApplyValid s v
    · simp [hv, getView_updView_ne _ _ _ _ h]
    · simp [hv]

theorem applyOp_buffers (s : DataStore) (vid : Nat) :
    (applyOp s vid).buffers = s.buffers := by
  unfold applyOp
  cases hm : s.getView vid with
  | none => rfl
  | some v =>
    by_cases hv : isApplyValid s v <;> simp [hv, DataStore.updView]

theorem getBuffer_of_buffers_eq {s t : DataStore} (h : t.buffers = s.buffers) (bid : Nat) :
    t.getBuffer bid = s.getBuffer bid := by
  unfold DataStore.getBuffer
  rw [h]


/-- `attachBuffer(buff)` on an EMPTY view with a store-resident buffer:
the view transitions to BUFFER attached to that buffer (its description is
untouched; at most the applied flag is set by the conditional `apply()`),
the buffer gains the back-reference, and nothing else changes. -/
theorem attachToEmptyView_spec (s : DataStore) (vid bid : Nat) (v : View) (b : Buffer)
    (hv : s.getView vid = some v) (hb : s.getBuffer bid = some b) :
    ∃ v', (attachToEmptyView s vid bid).getView vid = some v' ∧
      v'.state = .BUFFER ∧ v'.data_buffer = some bid ∧
      v'.schema = v.schema ∧ v'.name = v.name ∧
      (attachToEmptyView s vid bid).getBuffer bid =
        some { b with views := b.views ++ [vid] } ∧
      (∀ k, k ≠ vid → (attachToEmptyView s vid bid).getView k = s.getView k) ∧
      (∀ kb, kb ≠ bid → (attachToEmptyView s vid bid).getBuffer kb = s.getBuffer kb) := by
  have hs1v : ((s.updBuffer bid (fun bb => { bb with views := bb.views ++ [vid] })).updView
      vid (fun w => { w with data_buffer := some bid, state := .BUFFER })).getView vid =
      some { v with data_buffer := some bid, state := .BUFFER } := by
    rw [getView_updView_self, getView_updBuffer, hv, Option.map_some']
  have hs1b : ((s.updBuffer bid (fun bb => { bb with views := bb.views ++ [vid] })).updView
      vid (fun w => { w with data_buffer := some bid, state := .BUFFER })).getBuffer bid =
      some { b with views := b.views ++ [vid] } := by
    rw [getBuffer_updView, getBuffer_updBuffer_self, hb, Option.map_some']
  have hs1vk : ∀ k, k ≠ vid →
      ((s.updBuffer bid (fun bb => { bb with views := bb.views ++ [vid] })).updView
        vid (fun w => { w with data_buffer := some bid, state := .BUFFER })).getView k =
      s.getView k := by
    intro k hk
    rw [getView_updView_ne _ _ _ _ hk, getView_updBuffer]
  have hs1bk : ∀ kb, kb ≠ bid →
      ((s.updBuffer bid (fun bb => { bb with views := bb.views ++ [vid] })).updView
        vid (fun w => { w with data_buffer := some bid, state := .BUFFER })).getBuffer kb =
      s.getBuffer kb := by
    intro kb hkb
    rw [getBuffer_updView, getBuffer_updBuffer_ne _ _ _ _ hkb]
  unfold attachToEmptyView
  rw [hb]
  simp only [hs1v, hs1b]
  by_cases happ :
      (({ v with data_buffer := some bid, state := .BUFFER } : View).isDescribed &&
        ({ b with views := b.views ++ [vid] } : Buffer).isAllocated) = true
  · simp only [happ, if_true]
    by_cases happly : isApplyValid
        ((s.updBuffer bid (fun bb => { bb with views := bb.views ++ [vid] })).updView
          vid (fun w => { w with data_buffer := some bid, state := .BUFFER }))
        { v with data_buffer := some bid, state := .BUFFER }
    · refine ⟨{ v with data_buffer := some bid, state := .BUFFER, is_applied := true },
        ?_, rfl, rfl, rfl, rfl, ?_, ?_, ?_⟩
      · rw [applyOp_getView, hs1v, Option.map_some', if_pos happly]
      · rw [getBuffer_of_buffers_eq (applyOp_buffers _ vid), hs1b]
      · intro k hk
        rw [applyOp_getView_ne _ _ _ hk, hs1vk k hk]
      · intro kb hkb
        rw [getBuffer_of_buffers_eq (applyOp_buffers _ vid), hs1bk kb hkb]
    · refine ⟨{ v with data_buffer := some bid, state := .BUFFER },
        ?_, rfl, rfl, rfl, rfl, ?_, ?_, ?_⟩
      · rw [applyOp_getView, hs1v, Option.map_some', if_neg happly]
      · rw [getBuffer_of_buffers_eq (applyOp_buffers _ vid), hs1b]
      · intro k hk
        rw [applyOp_getView_ne _ _ _ hk, hs1vk k hk]
      · intro kb hkb
        rw [getBuffer_of_buffers_eq (applyOp_buffers _ vid), hs1bk kb hkb]
  · simp only [happ, if_false]
    exact ⟨_, hs1v, rfl, rfl, rfl, rfl, hs1b, hs1vk, hs1bk⟩

/-- The attach arm reached through the public `attachBuffer` on an EMPTY view. -/
theorem attachBufferOp_empty_eq (s : DataStore) (vid bid : Nat) (v : View)
    (hv : s.getView vid = some v) (hst : v.state = .EMPTY) :
    attachBufferOp s vid (some bid) = attachToEmptyView s vid bid := by
  unfold attachBufferOp
  rw [hv]
  have c1 : (v.state == State.BUFFER && ((some bid : Option Nat) == none)) = false := by
    simp [hst]
  have c2 : (v.state == State.EMPTY && (some bid : Option Nat).isSome) = true := by
    simp [hst]
  simp only [c1, Bool.false_eq_true, if_false, c2, if_true]

theorem importDescription_state (v : View) (n : ExportNode) :
    (v.importDescription n).state = v.state := by
  unfold View.importDescription
  cases n.schema with
  | none => rfl
  | some d =>
    cases n.shape with
    | none => rfl
    | some sh => rfl

theorem importDescription_data_buffer (v : View) (n : ExportNode) :
    (v.importDescription n).data_buffer = v.data_buffer := by
  unfold View.importDescription
  cases n.schema with
  | none => rfl
  | some d =>
    cases n.shape with
    | none => rfl
    | some sh => rfl

/-- What `View::exportTo` writes for a BUFFER-state view: the state tag
`"BUFFER"`, the attached buffer's index, the applied flag, and the buffer
index recorded into the referenced set. -/
theorem exportTo_buffer_node (v : View) (bid : Nat) (l : List Nat)
    (hst : v.state = .BUFFER) (hdb : v.data_buffer = some bid) :
    (v.exportTo l).1.state = "BUFFER" ∧
    (v.exportTo l).1.buffer_id = some bid ∧
    (v.exportTo l).1.is_applied = some v.is_applied ∧
    (v.exportTo l).2 = insertIdx bid l := by
  unfold View.exportTo
  rw [hst, hdb]
  by_cases hd : v.isDescribed
  · simp only [hd, if_true]
    unfold View.exportDescription
    by_cases hsh : v.shape.length > 1 <;> simp [hsh, stateStringName]
  · simp [hd, stateStringName]

/-- The BUFFER import arm on an EMPTY view with a resolvable buffer id:
the restored view is attached (state BUFFER) to the newly-indexed buffer,
and all other views and buffers are untouched. -/
theorem importBufferCase_spec (s : DataStore) (vid : Nat) (w : View) (n : ExportNode)
    (bmap : Nat → Option Nat) (old nid : Nat) (nb : Buffer)
    (hw : s.getView vid = some w) (hwst : w.state = .EMPTY)
    (hbid : n.buffer_id = some old) (hmap : bmap old = some nid)
    (hnb : s.getBuffer nid = some nb) :
    ∃ v' b', (importBufferCase s vid n bmap).getView vid = some v' ∧
      v'.state = .BUFFER ∧ v'.data_buffer = some nid ∧
      (importBufferCase s vid n bmap).getBuffer nid = some b' ∧
      (∀ k, k ≠ vid → (importBufferCase s vid n bmap).getView k = s.getView k) ∧
      (∀ kb, kb ≠ nid → (importBufferCase s vid n bmap).getBuffer kb = s.getBuffer kb) := by
  unfold importBufferCase
  simp only [hbid, hmap]
  have hs2v : (s.updView vid (fun v => v.importDescription n)).getView vid =
      some (w.importDescription n) := by
    rw [getView_updView_self, hw, Option.map_some']
  have hs2st : (w.importDescription n).state = .EMPTY := by
    rw [importDescription_state, hwst]
  have hs2b : (s.updView vid (fun v => v.importDescription n)).getBuffer nid = some nb := by
    rw [getBuffer_updView, hnb]
  have hatt := attachBufferOp_empty_eq (s.updView vid (fun v => v.importDescription n))
    vid nid (w.importDescription n) hs2v hs2st
  rcases attachToEmptyView_spec (s.updView vid (fun v => v.importDescription n))
      vid nid (w.importDescription n) nb hs2v hs2b with
    ⟨v3, h3v, h3st, h3db, _, _, h3b, h3vk, h3bk⟩
  rw [hatt]
  by_cases happ : n.is_applied.getD false
  · simp only [happ, if_true]
    by_cases hvalid : isApplyValid (attachToEmptyView
        (s.updView vid (fun v => v.importDescription n)) vid nid) v3
    · refine ⟨{ v3 with is_applied := true }, { nb with views := nb.views ++ [vid] },
        ?_, ?_, ?_, ?_, ?_, ?_⟩
      · rw [applyOp_getView, h3v, Option.map_some', if_pos hvalid]
      · simpa using h3st
      · simpa using h3db
      · rw [getBuffer_of_buffers_eq (applyOp_buffers _ vid), h3b]
      · intro k hk
        rw [applyOp_getView_ne _ _ _ hk, h3vk k hk, getView_updView_ne _ _ _ _ hk]
      · intro kb hkb
        rw [getBuffer_of_buffers_eq (applyOp_buffers _ vid), h3bk kb hkb, getBuffer_updView]
    · refine ⟨v3, { nb with views := nb.views ++ [vid] }, ?_, h3st, h3db, ?_, ?_, ?_⟩
      · rw [applyOp_getView, h3v, Option.map_some', if_neg hvalid]
      · rw [getBuffer_of_buffers_eq (applyOp_buffers _ vid), h3b]
      · intro k hk
        rw [applyOp_getView_ne _ _ _ hk, h3vk k hk, getView_updView_ne _ _ _ _ hk]
      · intro kb hkb
        rw [getBuffer_of_buffers_eq (applyOp_buffers _ vid), h3bk kb hkb, getBuffer_updView]
  · rw [if_neg happ]
    refine ⟨v3, { nb with views := nb.views ++ [vid] }, h3v, h3st, h3db, h3b, ?_, ?_⟩
    · intro k hk
      rw [h3vk k hk, getView_updView_ne _ _ _ _ hk]
    · intro kb hkb
      rw [h3bk kb hkb, getBuffer_updView]

/-- `View::importFrom` on a document node whose state tag is `"BUFFER"`:
the restored view ends attached to the buffer the old-to-new index map
resolves, and every other view and buffer is untouched. -/
theorem importFromOp_buffer_node (s : DataStore) (vid : Nat) (w : View) (n : ExportNode)
    (bmap : Nat → Option Nat) (old nid : Nat) (nb : Buffer)
    (hw : s.getView vid = some w) (hstate : n.state = "BUFFER")
    (hbid : n.buffer_id = some old) (hmap : bmap old = some nid)
    (hnb : s.getBuffer nid = some nb) :
    ∃ v' b', (importFromOp s vid n bmap).getView vid = some v' ∧
      v'.state = .BUFFER ∧ v'.data_buffer = some nid ∧
      (importFromOp s vid n bmap).getBuffer nid = some b' ∧
      (∀ k, k ≠ vid → (importFromOp s vid n bmap).getView k = s.getView k) ∧
      (∀ kb, kb ≠ nid → (importFromOp s vid n bmap).getBuffer kb = s.getBuffer kb) := by
  have hstid : getStateId n.state = .BUFFER := by rw [hstate]; rfl
  unfold importFromOp
  rw [hw]
  simp only [hstid]
  have hmid : ((s.updView vid (fun v => { v with state := State.BUFFER })).updView vid
      (fun v => { v with state := State.EMPTY })).getView vid =
      some { w with state := .EMPTY } := by
    rw [getView_updView_self, getView_updView_self, hw]
    rfl
  have hmidb : ((s.updView vid (fun v => { v with state := State.BUFFER })).updView vid
      (fun v => { v with state := State.EMPTY })).getBuffer nid = some nb := by
    rw [getBuffer_updView, getBuffer_updView, hnb]
  rcases importBufferCase_spec _ vid { w with state := .EMPTY } n bmap old nid nb
      hmid rfl hbid hmap hmidb with ⟨v', b', h1, h2, h3, h4, h5, h6⟩
  refine ⟨v', b', h1, h2, h3, h4, ?_, ?_⟩
  · intro k hk
    rw [h5 k hk, getView_updView_ne _ _ _ _ hk, getView_updView_ne _ _ _ _ hk]
  · intro kb hkb
    rw [h6 kb hkb, getBuffer_updView, getBuffer_updView]

/-! ## Claims -/

theorem View.getOffset_set_applied (v : View) :
    ({ v with is_applied := true } : View).getOffset = v.getOffset := rfl

theorem View.getStride_set_applied (v : View) :
    ({ v with is_applied := true } : View).getStride = v.getStride := rfl

/-- C4: `apply(num_elems, offset, stride)` interprets offset and stride in
elements, converting to bytes by the element width; `getOffset`/`getStride`
convert back by exact integer division: for every view whose described
element type has byte width W > 0, after `apply(4, 2, 3)` the view reports
offset 2 and stride 3 (element counts, not byte values). -/
theorem C4_offset_stride_in_elements (s : DataStore) (vid : Nat) (v : View)
    (hv : s.getView vid = some v) (ht : v.schema.id ≠ TypeID.noType)
    (hw : 0 < elementBytes v.schema.id) :
    ∃ v', (applyNOS s vid 4 2 3).getView vid = some v' ∧
      v'.getOffset = SlicResult.ok 2 ∧ v'.getStride = SlicResult.ok 3 := by
  have hne : (!v.schema.isEmpty) = true := by
    simp [DataType.isEmpty]
    intro h
    exact ht h
  have h4 : ¬ ((4 : Int) < 0) := by norm_num
  unfold applyNOS
  simp only [hv]
  rw [if_neg h4]
  simp only [hne, if_true]
  rw [applyOp_getView, getView_updView_self, hv, Option.map_some', Option.map_some']
  refine ⟨_, rfl, ?_⟩
  have hoff :
      (v.describeD { v.schema with
        numElems := 4,
        offsetBytes := 2 * elementBytes v.schema.id,
        strideBytes := 3 * elementBytes v.schema.id }).getOffset = SlicResult.ok 2 ∧
      (v.describeD { v.schema with
        numElems := 4,
        offsetBytes := 2 * elementBytes v.schema.id,
        strideBytes := 3 * elementBytes v.schema.id }).getStride = SlicResult.ok 3 := by
    have hw0 : elementBytes v.schema.id ≠ 0 := by omega
    have hmod2 : (2 * elementBytes v.schema.id) % elementBytes v.schema.id = 0 := by
      simp [Int.mul_emod_left]
    have hmod3 : (3 * elementBytes v.schema.id) % elementBytes v.schema.id = 0 := by
      simp [Int.mul_emod_left]
    have hdiv2 : 2 * elementBytes v.schema.id / elementBytes v.schema.id = 2 :=
      Int.mul_ediv_cancel 2 hw0
    have hdiv3 : 3 * elementBytes v.schema.id / elementBytes v.schema.id = 3 :=
      Int.mul_ediv_cancel 3 hw0
    constructor <;>
      simp [View.getOffset, View.getStride, View.describeD, View.isDescribed,
        View.getBytesPerElement, DataType.isEmpty, ht, hne, hw0, hmod2, hmod3,
        hdiv2, hdiv3]
  split
  · rw [View.getOffset_set_applied, View.getStride_set_applied]
    exact hoff
  · exact hoff

/-- C4 witness: a described EXTERNAL int32 view; `apply(4,2,3)` succeeds
and the view reports offset 2 and stride 3. -/
theorem C4_offset_stride_in_elements_witness :
    ∃ v', (applyNOS
        (⟨[], [(0, ⟨"e", .EXTERNAL, ⟨.int32, 1, 0, 4⟩, [1], false, none, true⟩)]⟩ :
          DataStore) 0 4 2 3).getView 0 = some v' ∧
      v'.getOffset = SlicResult.ok 2 ∧ v'.getStride = SlicResult.ok 3 :=
  C4_offset_stride_in_elements
    (⟨[], [(0, ⟨"e", .EXTERNAL, ⟨.int32, 1, 0, 4⟩, [1], false, none, true⟩)]⟩ : DataStore) 0
    (⟨"e", .EXTERNAL, ⟨.int32, 1, 0, 4⟩, [1], false, none, true⟩ : View)
    (by decide) (by decide) (by decide)

/-- C5 counterexample: a described view whose byte offset 2 is not a
multiple of its element width 4.  The claim says the non-integral case is
reported "in warn-and-continue mode"; `getOffset` fires `SLIC_ERROR_IF`,
the abort-the-process flavor, not the warn flavor. -/
theorem C5_counterexample :
    View.getOffset ⟨"x", .BUFFER, ⟨.int32, 4, 2, 4⟩, [4], true, some 0, false⟩ =
      SlicResult.fail .fatal ∧
    View.getOffset ⟨"x", .BUFFER, ⟨.int32, 4, 2, 4⟩, [4], true, some 0, false⟩ ≠
      SlicResult.fail .warning := by
  constructor <;> decide

/-- C5 (amended): for every described view whose stored byte offset (resp.
stride) is not an exact multiple of its element byte width, `getOffset`
(resp. `getStride`) detects the non-integral case and reports it through
the abort-mode collaborator (`SLIC_ERROR_IF`), not warn-and-continue; no
silently truncated quotient is ever returned. -/
theorem C5_nonintegral_reported_fatal (v : View)
    (hd : v.isDescribed = true) (hw : v.getBytesPerElement ≠ 0) :
    (v.schema.offsetBytes % v.getBytesPerElement ≠ 0 →
      v.getOffset = SlicResult.fail .fatal) ∧
    (v.schema.strideBytes % v.getBytesPerElement ≠ 0 →
      v.getStride = SlicResult.fail .fatal) := by
  constructor
  · intro hmod
    unfold View.getOffset
    simp [hd, hw, hmod]
  · intro hmod
    unfold View.getStride
    simp [hd, hw, hmod]

/-- C5 witness: concrete non-integral offset (6 bytes over width 4) and
stride (6 bytes over width 4) both reported at abort level. -/
theorem C5_nonintegral_reported_fatal_witness :
    View.getOffset ⟨"w", .EXTERNAL, ⟨.int32, 4, 6, 4⟩, [4], true, none, true⟩ =
      SlicResult.fail .fatal ∧
    View.getStride ⟨"w", .EXTERNAL, ⟨.int32, 4, 0, 6⟩, [4], true, none, true⟩ =
      SlicResult.fail .fatal :=
  ⟨(C5_nonintegral_reported_fatal
      ⟨"w", .EXTERNAL, ⟨.int32, 4, 6, 4⟩, [4], true, none, true⟩
      (by decide) (by decide)).1 (by decide),
   (C5_nonintegral_reported_fatal
      ⟨"w", .EXTERNAL, ⟨.int32, 4, 0, 6⟩, [4], true, none, true⟩
      (by decide) (by decide)).2 (by decide)⟩

/-- C9: the newer `View::isApplyValid` and the older `DataView::isApplyValid`
compute the same predicate on every input except zero-length data: on a
described BUFFER-state view with total byte extent 0 that fits its buffer,
the newer variant accepts (`0 <=`) and the older rejects (`0 <`), so
`apply()` succeeds in the newer variant and is a rejected no-op in the
older. -/
theorem C9_isApplyValid_variants (v : View) (b : Option Buffer) :
    (v.isApplyValidWith b =
      (DataView_isApplyValidWith v b ||
        (v.isDescribed && v.state == State.BUFFER && decide (v.getTotalBytes = 0) &&
          (match b with
           | some bb => decide (0 ≤ bb.getTotalBytes)
           | none => false)))) ∧
    (∀ bb : Buffer, b = some bb → v.state = .BUFFER → v.isDescribed = true →
      v.getTotalBytes = 0 → 0 ≤ bb.getTotalBytes →
      v.isApplyValidWith b = true ∧ DataView_isApplyValidWith v b = false ∧
      applyViewNew v b = { v with is_applied := true } ∧ applyViewOld v b = v) := by
  constructor
  · unfold View.isApplyValidWith DataView_isApplyValidWith
    by_cases hd : v.isDescribed
    · cases hst : v.state <;> simp [hd, hst]
      cases b with
      | none => simp
      | some bb =>
        by_cases h0 : v.getTotalBytes = 0 <;>
          by_cases hle : v.getTotalBytes ≤ bb.getTotalBytes <;>
          by_cases hB : (0 : Int) ≤ bb.getTotalBytes <;>
          simp [h0, hle, hB] <;> omega
    · simp [hd]
  · intro bb hb hst hd h0 hB
    subst hb
    have hnew : v.isApplyValidWith (some bb) = true := by
      unfold View.isApplyValidWith
      simp [hd, hst, h0]
      omega
    have hold : DataView_isApplyValidWith v (some bb) = false := by
      unfold DataView_isApplyValidWith
      simp [hd, hst, h0]
    refine ⟨hnew, hold, ?_, ?_⟩
    · unfold applyViewNew
      rw [hnew]
      simp
    · unfold applyViewOld
      rw [hold]
      simp

/-- C9 witness: a described zero-element BUFFER view on an allocated
4-element buffer — valid to apply in the newer variant, rejected in the
older, so `apply()` sets the applied flag only in the newer variant. -/
theorem C9_isApplyValid_variants_witness :
    View.isApplyValidWith ⟨"z", .BUFFER, ⟨.int32, 0, 0, 4⟩, [0], false, some 0, false⟩
        (some ⟨.int32, 4, true, [0]⟩) = true ∧
    DataView_isApplyValidWith ⟨"z", .BUFFER, ⟨.int32, 0, 0, 4⟩, [0], false, some 0, false⟩
        (some ⟨.int32, 4, true, [0]⟩) = false ∧
    applyViewNew ⟨"z", .BUFFER, ⟨.int32, 0, 0, 4⟩, [0], false, some 0, false⟩
        (some ⟨.int32, 4, true, [0]⟩) =
      { (⟨"z", .BUFFER, ⟨.int32, 0, 0, 4⟩, [0], false, some 0, false⟩ : View) with
        is_applied := true } ∧
    applyViewOld ⟨"z", .BUFFER, ⟨.int32, 0, 0, 4⟩, [0], false, some 0, false⟩
        (some ⟨.int32, 4, true, [0]⟩) =
      ⟨"z", .BUFFER, ⟨.int32, 0, 0, 4⟩, [0], false, some 0, false⟩ :=
  (C9_isApplyValid_variants
      ⟨"z", .BUFFER, ⟨.int32, 0, 0, 4⟩, [0], false, some 0, false⟩
      (some ⟨.int32, 4, true, [0]⟩)).2
    ⟨.int32, 4, true, [0]⟩ rfl rfl (by decide) (by decide) (by decide)

theorem view_state_empty_eta (w : View) (h : w.state = .EMPTY) :
    ({ w with state := State.EMPTY } : View) = w := by
  cases w with
  | mk nm st sc sh ap db ep =>
    simp only at h
    subst h
    rfl

/-- C10: an EXTERNAL view with no description exports with the state tag
`"EMPTY"` and no schema, shape, buffer id or value (the external pointer is
never persisted — the document format has no field for it), so an
export/import round trip restores an EMPTY view, not an EXTERNAL one. -/
theorem C10_undescribed_external_exports_empty (v : View) (idxs : List Nat)
    (hst : v.state = .EXTERNAL) (hd : v.isDescribed = false) :
    (v.exportTo idxs).1.state = "EMPTY" ∧
    (v.exportTo idxs).1.schema = none ∧
    (v.exportTo idxs).1.shape = none ∧
    (v.exportTo idxs).1.buffer_id = none ∧
    (v.exportTo idxs).1.value = none ∧
    (v.exportTo idxs).2 = idxs ∧
    (∀ (t : DataStore) (wid : Nat) (w : View) (bmap : Nat → Option Nat),
      t.getView wid = some w → w.state = .EMPTY →
      (importFromOp t wid (v.exportTo idxs).1 bmap).getView wid = some w) := by
  have hnode : v.exportTo idxs = ({ emptyNode with state := "EMPTY" }, idxs) := by
    unfold View.exportTo
    rw [hst]
    simp [hd, stateStringName]
  rw [hnode]
  refine ⟨rfl, rfl, rfl, rfl, rfl, rfl, ?_⟩
  intro t wid w bmap hw hwst
  have hstid : getStateId ({ emptyNode with state := "EMPTY" } : ExportNode).state =
      State.EMPTY := rfl
  unfold importFromOp
  simp only [hw, hstid]
  rw [getView_updView_self, getView_updView_self, hw, Option.map_some', Option.map_some']
  rw [view_state_empty_eta w hwst]
  have himp : w.importDescription { emptyNode with state := "EMPTY" } = w := rfl
  rw [himp]

/-- C10 witness: a concrete undescribed EXTERNAL view round-trips to the
untouched fresh EMPTY view. -/
theorem C10_undescribed_external_exports_empty_witness :
    ((⟨"ext", .EXTERNAL, ⟨.noType, 0, 0, 0⟩, [], false, none, true⟩ : View).exportTo
        [7]).1.state = "EMPTY" ∧
    ((⟨"ext", .EXTERNAL, ⟨.noType, 0, 0, 0⟩, [], false, none, true⟩ : View).exportTo
        [7]).2 = [7] ∧
    (importFromOp (⟨[], [(3, freshView "r")]⟩ : DataStore) 3
        ((⟨"ext", .EXTERNAL, ⟨.noType, 0, 0, 0⟩, [], false, none, true⟩ : View).exportTo
          [7]).1 (fun _ => none)).getView 3 = some (freshView "r") := by
  have h := C10_undescribed_external_exports_empty
    ⟨"ext", .EXTERNAL, ⟨.noType, 0, 0, 0⟩, [], false, none, true⟩ [7] rfl (by decide)
  exact ⟨h.1, h.2.2.2.2.2.1,
    h.2.2.2.2.2.2 (⟨[], [(3, freshView "r")]⟩ : DataStore) 3 (freshView "r")
      (fun _ => none) (by decide) rfl⟩

/-- C8: `View::rename` returns false and leaves the view's name and the
parent's child maps unchanged when the new name is empty, contains the
parent's path delimiter, or collides with a sibling Group or View name;
otherwise it renames and returns true, and renaming to the current name
also returns true. -/
theorem C8_rename_validation (v : View) (g : Group) (nm : String) :
    (nm = v.name → v.rename g nm = (true, v, g)) ∧
    (nm ≠ v.name →
      (nm.isEmpty = true ∨ nm.data.contains g.path_delimiter = true ∨
        g.hasGroup nm = true ∨ g.hasView nm = true) →
      v.rename g nm = (false, v, g)) ∧
    (nm ≠ v.name → nm.isEmpty = false → nm.data.contains g.path_delimiter = false →
      g.hasGroup nm = false → g.hasView nm = false →
      v.rename g nm = (true, { v with name := nm }, (g.detachView v.name).attachView nm)) := by
  refine ⟨?_, ?_, ?_⟩
  · intro h
    unfold View.rename
    simp [h]
  · intro hne hbad
    have h1 : (nm == v.name) = false := by
      simp [hne]
    unfold View.rename
    by_cases hE : nm.isEmpty <;> by_cases hC : nm.data.contains g.path_delimiter <;>
      by_cases hG : g.hasGroup nm <;> by_cases hV : g.hasView nm <;>
      simp [h1, hE, hC, hG, hV] <;>
      rcases hbad with h | h | h | h <;> simp_all
  · intro hne hE hC hG hV
    have h1 : (nm == v.name) = false := by
      simp [hne]
    have hC' : g.path_delimiter ∉ nm.data := by
      simpa using hC
    unfold View.rename
    simp [h1, hE, hC', hG, hV]

/-- C8 witness: renaming `"a"` to the fresh name `"b"` succeeds and updates
the parent's view map; renaming to the sibling group name `"sub"` fails
with the view and parent unchanged. -/
theorem C8_rename_validation_witness :
    View.rename (freshView "a") ⟨'/', ["sub"], ["a", "c"]⟩ "b" =
      (true, { freshView "a" with name := "b" },
        (((⟨'/', ["sub"], ["a", "c"]⟩ : Group)).detachView "a").attachView "b") ∧
    View.rename (freshView "a") ⟨'/', ["sub"], ["a", "c"]⟩ "sub" =
      (false, freshView "a", ⟨'/', ["sub"], ["a", "c"]⟩) :=
  ⟨(C8_rename_validation (freshView "a") ⟨'/', ["sub"], ["a", "c"]⟩ "b").2.2
      (by decide) (by decide) (by decide) (by decide) (by decide),
   (C8_rename_validation (freshView "a") ⟨'/', ["sub"], ["a", "c"]⟩ "sub").2.1
      (by decide) (Or.inr (Or.inr (Or.inl (by decide))))⟩

theorem applyOp_describe_skeleton (s : DataStore) (vid : Nat) (d : DataType) :
    (applyOp (s.updView vid (fun x => x.describeD d)) vid).buffers = s.buffers ∧
    ∀ k, ((applyOp (s.updView vid (fun x => x.describeD d)) vid).getView k).map viewSkeleton =
      (s.getView k).map viewSkeleton := by
  constructor
  · rw [applyOp_buffers]
    rfl
  · intro k
    by_cases hk : k = vid
    · subst hk
      rw [applyOp_getView, getView_updView_self]
      cases hm : s.getView k with
      | none => rfl
      | some v =>
        simp only [Option.map_some']
        split <;> rfl
    · rw [applyOp_getView_ne _ _ _ hk, getView_updView_ne _ _ _ _ hk]

theorem applyNOS_skeleton (s : DataStore) (vid : Nat) (ne off st : Int) :
    (applyNOS s vid ne off st).buffers = s.buffers ∧
    ∀ k, ((applyNOS s vid ne off st).getView k).map viewSkeleton =
      (s.getView k).map viewSkeleton := by
  unfold applyNOS
  cases hm : s.getView vid with
  | none => exact ⟨rfl, fun k => rfl⟩
  | some v =>
    simp only
    by_cases hn : ne < 0
    · rw [if_pos hn]
      exact ⟨rfl, fun k => rfl⟩
    · rw [if_neg hn]
      by_cases hs : (!v.schema.isEmpty) = true
      · simp only [hs, if_true]
        exact applyOp_describe_skeleton s vid _
      · simp only [hs, Bool.false_eq_true, if_false]
        cases hb : s.bufferOf v with
        | none => exact ⟨rfl, fun k => rfl⟩
        | some bb =>
          simp only [Option.map_some']
          exact applyOp_describe_skeleton s vid _

/-- C3 (amended): precondition failures detected before any mutation
(negative count, empty type) are complete no-ops; and neither
`apply(num_elems, offset, stride)` nor `allocate(type, num_elems)` ever
touches the state tag, buffer attachment, name, external pointer, data or
other views.  But both re-describe the View before the apply/allocate
validity check, so when that check fails (e.g. a SCALAR/STRING/EXTERNAL
view) the View keeps the new description, shape and cleared applied flag:
the failed call is not a complete no-op. -/
theorem C3_failure_atomicity :
    (∀ (s : DataStore) (vid : Nat) (ne off st : Int),
      ne < 0 → applyNOS s vid ne off st = s) ∧
    (∀ (s : DataStore) (vid : Nat) (t : TypeID) (n : Int),
      t = .noType ∨ n < 0 → allocateTN s vid t n = s) ∧
    (∀ (s : DataStore) (vid : Nat) (ne off st : Int),
      (applyNOS s vid ne off st).buffers = s.buffers ∧
      ∀ k, ((applyNOS s vid ne off st).getView k).map viewSkeleton =
        (s.getView k).map viewSkeleton) ∧
    (∀ (s : DataStore) (vid : Nat) (t : TypeID) (n : Int) (v : View),
      s.getView vid = some v →
      (v.state = .EXTERNAL ∨ v.state = .SCALAR ∨ v.state = .STRING) →
      t ≠ .noType → ¬ n < 0 →
      allocateTN s vid t n = s.updView vid (fun w => w.describeT t n)) := by
  refine ⟨?_, ?_, ?_, ?_⟩
  · intro s vid ne off st hn
    unfold applyNOS
    cases hm : s.getView vid with
    | none => rfl
    | some v => simp only [if_pos hn]
  · intro s vid t n h
    unfold allocateTN
    rcases h with h | h <;> simp [h]
  · intro s vid ne off st
    exact applyNOS_skeleton s vid ne off st
  · intro s vid t n v hv hstate ht hn
    have hcond : (t == TypeID.noType || n < 0) = false := by
      simp [ht, hn]
    have hv' : (s.updView vid (fun w => w.describeT t n)).getView vid =
        some (v.describeT t n) := by
      rw [getView_updView_self, hv, Option.map_some']
    have hinv : isAllocateValid (s.updView vid (fun w => w.describeT t n))
        (v.describeT t n) = false := by
      unfold isAllocateValid
      rcases hstate with h | h | h <;> simp [View.describeT, h]
    unfold allocateTN
    rw [hcond]
    simp only [Bool.false_eq_true, if_false]
    unfold allocateOp
    simp only [hv', hinv, Bool.not_false, if_true]

/-- C3 witness: a negative element count is rejected up front and is a
complete no-op; `allocate(int32, 5)` on a described EXTERNAL view stops at
the validity check but has already re-described the view. -/
theorem C3_failure_atomicity_witness :
    applyNOS (⟨[], [(0, ⟨"s", .SCALAR, ⟨.int32, 1, 0, 4⟩, [1], true, none, false⟩)]⟩ :
        DataStore) 0 (-1) 0 1 =
      ⟨[], [(0, ⟨"s", .SCALAR, ⟨.int32, 1, 0, 4⟩, [1], true, none, false⟩)]⟩ ∧
    allocateTN (⟨[], [(0, ⟨"e", .EXTERNAL, ⟨.int32, 3, 0, 4⟩, [3], true, none, true⟩)]⟩ :
        DataStore) 0 .int32 5 =
      DataStore.updView
        ⟨[], [(0, ⟨"e", .EXTERNAL, ⟨.int32, 3, 0, 4⟩, [3], true, none, true⟩)]⟩ 0
        (fun w => w.describeT .int32 5) :=
  ⟨C3_failure_atomicity.1
      ⟨[], [(0, ⟨"s", .SCALAR, ⟨.int32, 1, 0, 4⟩, [1], true, none, false⟩)]⟩ 0 (-1) 0 1
      (by decide),
   C3_failure_atomicity.2.2.2
      ⟨[], [(0, ⟨"e", .EXTERNAL, ⟨.int32, 3, 0, 4⟩, [3], true, none, true⟩)]⟩ 0 .int32 5
      ⟨"e", .EXTERNAL, ⟨.int32, 3, 0, 4⟩, [3], true, none, true⟩
      (by decide) (Or.inl rfl) (by decide) (by decide)⟩

/-- C3 counterexample: `apply(4, 2, 3)` on a SCALAR view fails its validity
check (the view ends not applied) yet has overwritten the description and
cleared the applied flag; `allocate(int32, 5)` on a described EXTERNAL view
likewise fails yet mutates the description.  Failed calls are not complete
no-ops. -/
theorem C3_counterexample :
    applyNOS (⟨[], [(0, ⟨"s", .SCALAR, ⟨.int32, 1, 0, 4⟩, [1], true, none, false⟩)]⟩ :
        DataStore) 0 4 2 3 ≠
      ⟨[], [(0, ⟨"s", .SCALAR, ⟨.int32, 1, 0, 4⟩, [1], true, none, false⟩)]⟩ ∧
    ((applyNOS (⟨[], [(0, ⟨"s", .SCALAR, ⟨.int32, 1, 0, 4⟩, [1], true, none, false⟩)]⟩ :
        DataStore) 0 4 2 3).getView 0).map View.is_applied = some false ∧
    allocateTN (⟨[], [(0, ⟨"x", .EXTERNAL, ⟨.int32, 3, 0, 4⟩, [3], true, none, true⟩)]⟩ :
        DataStore) 0 .int32 5 ≠
      ⟨[], [(0, ⟨"x", .EXTERNAL, ⟨.int32, 3, 0, 4⟩, [3], true, none, true⟩)]⟩ := by
  refine ⟨by decide, by decide, by decide⟩

theorem elementBytes_nonneg (t : TypeID) : 0 ≤ elementBytes t := by
  cases t <;> decide

/-- C7 counterexample: two described views share one allocated buffer;
`allocate()` on the first is a no-op (the buffer has two attached views)
but `isAllocated()` is `true`, not `false` — a BUFFER view on an allocated
shared buffer (and likewise EXTERNAL/SCALAR/STRING views) reports
allocated even though `allocate()` is invalid for it. -/
theorem C7_counterexample :
    allocateOp (⟨[(0, ⟨.int32, 4, true, [0, 1]⟩)],
        [(0, ⟨"a", .BUFFER, ⟨.int32, 4, 0, 4⟩, [4], true, some 0, false⟩),
         (1, ⟨"b", .BUFFER, ⟨.int32, 4, 0, 4⟩, [4], true, some 0, false⟩)]⟩ : DataStore)
      0 =
      ⟨[(0, ⟨.int32, 4, true, [0, 1]⟩)],
        [(0, ⟨"a", .BUFFER, ⟨.int32, 4, 0, 4⟩, [4], true, some 0, false⟩),
         (1, ⟨"b", .BUFFER, ⟨.int32, 4, 0, 4⟩, [4], true, some 0, false⟩)]⟩ ∧
    isAllocatedQ (⟨[(0, ⟨.int32, 4, true, [0, 1]⟩)],
        [(0, ⟨"a", .BUFFER, ⟨.int32, 4, 0, 4⟩, [4], true, some 0, false⟩),
         (1, ⟨"b", .BUFFER, ⟨.int32, 4, 0, 4⟩, [4], true, some 0, false⟩)]⟩ : DataStore)
      0 = true := by
  refine ⟨by decide, by decide⟩

/-- C7 (amended): `allocate()` is valid exactly for a described EMPTY view
or a described BUFFER view whose buffer has exactly one attached view; for
every other view it is a no-op on the whole store and leaves
`isAllocated()` unchanged (that query stays false only for undescribed or
unallocated EMPTY/BUFFER views; EXTERNAL/SCALAR/STRING views and views on
an allocated shared buffer report true throughout).  On a described EMPTY
view with a compact description, `allocate()` creates and allocates a new
buffer, transitions to BUFFER and applies. -/
theorem C7_allocate_validity (s : DataStore) (vid : Nat) (v : View)
    (hv : s.getView vid = some v) :
    (isAllocateValid s v =
      ((v.state == State.EMPTY && v.isDescribed) ||
       (v.state == State.BUFFER && v.isDescribed &&
         (match s.bufferOf v with
          | some b => b.getNumViews == 1
          | none => false)))) ∧
    (isAllocateValid s v = false → allocateOp s vid = s) ∧
    (isAllocateValid s v = false →
      isAllocatedQ (allocateOp s vid) vid = isAllocatedQ s vid) ∧
    (v.state = .EMPTY → v.isDescribed = true → v.schema.offsetBytes = 0 →
      v.schema.strideBytes = elementBytes v.schema.id → 0 ≤ v.schema.numElems →
      ∃ v' b', (allocateOp s vid).getView vid = some v' ∧
        v'.state = .BUFFER ∧ v'.is_applied = true ∧
        v'.data_buffer = some (createBufferIndex s) ∧
        (allocateOp s vid).getBuffer (createBufferIndex s) = some b' ∧
        b'.isAllocated = true ∧
        isAllocatedQ (allocateOp s vid) vid = true) := by
  have hchar : isAllocateValid s v =
      ((v.state == State.EMPTY && v.isDescribed) ||
       (v.state == State.BUFFER && v.isDescribed &&
         (match s.bufferOf v with
          | some b => b.getNumViews == 1
          | none => false))) := by
    unfold isAllocateValid
    cases v.state <;> simp
  have hno : isAllocateValid s v = false → allocateOp s vid = s := by
    intro h
    unfold allocateOp
    simp only [hv, h, Bool.not_false, if_true]
  refine ⟨hchar, hno, ?_, ?_⟩
  · intro h
    rw [hno h]
  · intro hstE hd hoff hstr hn
    have ht : v.schema.id ≠ TypeID.noType := by
      simpa [View.isDescribed, DataType.isEmpty] using hd
    have hn' : ¬ v.schema.numElems < 0 := by omega
    have hval : isAllocateValid s v = true := by
      unfold isAllocateValid
      rw [hstE]
      exact hd
    have hb : (Buffer.mk .noType 0 false [vid]).allocate v.schema.id v.schema.numElems =
        ⟨v.schema.id, v.schema.numElems, true, [vid]⟩ := by
      unfold Buffer.allocate
      simp [ht, hn']
    unfold allocateOp
    simp only [hv, hval, Bool.not_true, Bool.false_eq_true, if_false, hstE,
      beq_self_eq_true, if_true]
    rw [hb]
    have hvk : lookupK s.views vid = some v := hv
    have hs1v : (DataStore.mk (s.buffers ++ [(createBufferIndex s,
          ⟨v.schema.id, v.schema.numElems, true, [vid]⟩)])
        (updEntry s.views vid
          (fun w => { w with
            data_buffer := some (createBufferIndex s),
            state := .BUFFER }))).getView vid =
        some { v with data_buffer := some (createBufferIndex s), state := .BUFFER } := by
      show lookupK (updEntry s.views vid (fun w => { w with
        data_buffer := some (createBufferIndex s),
        state := .BUFFER })) vid = _
      rw [lookupK_updEntry_self, hvk, Option.map_some']
    have hs1b : (DataStore.mk (s.buffers ++ [(createBufferIndex s,
          ⟨v.schema.id, v.schema.numElems, true, [vid]⟩)])
        (updEntry s.views vid
          (fun w => { w with
            data_buffer := some (createBufferIndex s),
            state := .BUFFER }))).getBuffer (createBufferIndex s) =
        some ⟨v.schema.id, v.schema.numElems, true, [vid]⟩ := by
      show lookupK (s.buffers ++ [(createBufferIndex s,
        ⟨v.schema.id, v.schema.numElems, true, [vid]⟩)]) (createBufferIndex s) = _
      rw [lookupK_append _ _ _ (createBufferIndex_fresh s), lookupK_cons]
      simp
    have hT : 0 ≤ stridedBytes v.schema ∧
        stridedBytes v.schema ≤ v.schema.numElems * elementBytes v.schema.id := by
      unfold stridedBytes
      rw [hstr]
      by_cases hz : v.schema.numElems ≤ 0
      · have h0 : v.schema.numElems = 0 := by omega
        simp [hz, h0]
      · rw [if_neg hz]
        have hW := elementBytes_nonneg v.schema.id
        constructor
        · nlinarith
        · nlinarith
    have hvalid : isApplyValid (DataStore.mk (s.buffers ++ [(createBufferIndex s,
          ⟨v.schema.id, v.schema.numElems, true, [vid]⟩)])
        (updEntry s.views vid
          (fun w => { w with
            data_buffer := some (createBufferIndex s),
            state := .BUFFER })))
        { v with data_buffer := some (createBufferIndex s), state := .BUFFER } = true := by
      unfold isApplyValid DataStore.bufferOf
      have hob : (some (createBufferIndex s)).bind (DataStore.mk (s.buffers ++
          [(createBufferIndex s, ⟨v.schema.id, v.schema.numElems, true, [vid]⟩)])
          (updEntry s.views vid
            (fun w => { w with
              data_buffer := some (createBufferIndex s),
              state := .BUFFER }))).getBuffer =
          some (⟨v.schema.id, v.schema.numElems, true, [vid]⟩ : Buffer) := by
        exact hs1b
      unfold View.isApplyValidWith
      simp only [hob]
      simp only [View.isDescribed] at hd ⊢
      simp only [hd, Bool.not_true, Bool.false_eq_true, if_false]
      simp only [View.getTotalBytes, Buffer.getTotalBytes]
      simp only [Bool.and_eq_true, decide_eq_true_eq]
      exact hT
    refine ⟨{ v with
        data_buffer := some (createBufferIndex s),
        state := .BUFFER,
        is_applied := true }, ⟨v.schema.id, v.schema.numElems, true, [vid]⟩,
      ?_, rfl, rfl, rfl, ?_, rfl, ?_⟩
    · rw [applyOp_getView, hs1v, Option.map_some', if_pos hvalid]
    · rw [getBuffer_of_buffers_eq (applyOp_buffers _ vid), hs1b]
    · unfold isAllocatedQ
      rw [applyOp_getView, hs1v, Option.map_some', if_pos hvalid]
      have hab : (applyOp (DataStore.mk (s.buffers ++ [(createBufferIndex s,
            ⟨v.schema.id, v.schema.numElems, true, [vid]⟩)])
          (updEntry s.views vid
            (fun w => { w with
              data_buffer := some (createBufferIndex s),
              state := .BUFFER }))) vid).getBuffer (createBufferIndex s) =
          some ⟨v.schema.id, v.schema.numElems, true, [vid]⟩ := by
        rw [getBuffer_of_buffers_eq (applyOp_buffers _ vid), hs1b]
      simp only [DataStore.bufferOf]
      simp [hab, hd, Buffer.isAllocated]
      exact hd

/-- C7 witness: `allocate()` on a described EMPTY int32 view of 3 elements
creates a fresh allocated buffer, transitions to BUFFER and applies. -/
theorem C7_allocate_validity_witness :
    ∃ v' b', (allocateOp (⟨[],
        [(0, ⟨"v", .EMPTY, ⟨.int32, 3, 0, 4⟩, [3], false, none, false⟩)]⟩ :
          DataStore) 0).getView 0 = some v' ∧
      v'.state = .BUFFER ∧ v'.is_applied = true ∧
      v'.data_buffer = some (createBufferIndex
        ⟨[], [(0, ⟨"v", .EMPTY, ⟨.int32, 3, 0, 4⟩, [3], false, none, false⟩)]⟩) ∧
      (allocateOp (⟨[],
        [(0, ⟨"v", .EMPTY, ⟨.int32, 3, 0, 4⟩, [3], false, none, false⟩)]⟩ :
          DataStore) 0).getBuffer (createBufferIndex
        ⟨[], [(0, ⟨"v", .EMPTY, ⟨.int32, 3, 0, 4⟩, [3], false, none, false⟩)]⟩) =
        some b' ∧
      b'.isAllocated = true ∧
      isAllocatedQ (allocateOp (⟨[],
        [(0, ⟨"v", .EMPTY, ⟨.int32, 3, 0, 4⟩, [3], false, none, false⟩)]⟩ :
          DataStore) 0) 0 = true :=
  (C7_allocate_validity
      ⟨[], [(0, ⟨"v", .EMPTY, ⟨.int32, 3, 0, 4⟩, [3], false, none, false⟩)]⟩ 0
      ⟨"v", .EMPTY, ⟨.int32, 3, 0, 4⟩, [3], false, none, false⟩
      (by decide)).2.2.2 rfl (by decide) rfl (by decide) (by decide)

theorem getView_destroyBuffer (s : DataStore) (bid k : Nat) :
    (s.destroyBuffer bid).getView k = s.getView k := rfl

theorem getBuffer_destroyBuffer_self (s : DataStore) (bid : Nat) :
    (s.destroyBuffer bid).getBuffer bid = none :=
  lookupK_filter_self s.buffers bid

theorem getBuffer_destroyBuffer_ne (s : DataStore) (bid k : Nat) (h : k ≠ bid) :
    (s.destroyBuffer bid).getBuffer k = s.getBuffer k :=
  lookupK_filter_ne s.buffers bid k h

/-- `attachBuffer(nullptr)` on a BUFFER view: the view is reset to EMPTY
(detached, unapplied), the buffer loses the back-reference and is destroyed
exactly when its attached-view count reaches zero; nothing else changes. -/
theorem attachNone_spec (s : DataStore) (vid bid : Nat) (v : View) (b : Buffer)
    (hv : s.getView vid = some v) (hst : v.state = .BUFFER)
    (hdb : v.data_buffer = some bid) (hB : s.getBuffer bid = some b) :
    (attachBufferOp s vid none).getView vid =
      some { v with data_buffer := none, state := .EMPTY, is_applied := false } ∧
    (∀ k, k ≠ vid → (attachBufferOp s vid none).getView k = s.getView k) ∧
    (attachBufferOp s vid none).getBuffer bid =
      (if (b.views.filter (· ≠ vid)).length = 0 then none
       else some { b with views := b.views.filter (· ≠ vid) }) ∧
    (∀ kb, kb ≠ bid → (attachBufferOp s vid none).getBuffer kb = s.getBuffer kb) := by
  have hstb : (v.state == State.BUFFER) = true := by simp [hst]
  have hdet : detachBufferOp s vid =
      ((s.updBuffer bid (fun bb => { bb with views := bb.views.filter (· ≠ vid) })).updView
        vid (fun w => { w with data_buffer := none, state := .EMPTY, is_applied := false }),
       some bid) := by
    unfold detachBufferOp
    simp only [hv, hstb, if_true, hdb]
  have hattach : attachBufferOp s vid none = detachAndMaybeDestroy s vid := by
    unfold attachBufferOp
    simp only [hv, hstb]
    rfl
  have hS2v : ((s.updBuffer bid (fun bb => { bb with views := bb.views.filter (· ≠ vid) })).updView
        vid (fun w =>
          { w with data_buffer := none, state := .EMPTY, is_applied := false })).getView vid =
      some { v with data_buffer := none, state := .EMPTY, is_applied := false } := by
    rw [getView_updView_self, getView_updBuffer, hv, Option.map_some']
  have hS2vk : ∀ k, k ≠ vid →
      ((s.updBuffer bid (fun bb => { bb with views := bb.views.filter (· ≠ vid) })).updView
        vid (fun w =>
          { w with data_buffer := none, state := .EMPTY, is_applied := false })).getView k =
      s.getView k := by
    intro k hk
    rw [getView_updView_ne _ _ _ _ hk, getView_updBuffer]
  have hS2b : ((s.updBuffer bid (fun bb => { bb with views := bb.views.filter (· ≠ vid) })).updView
        vid (fun w =>
          { w with data_buffer := none, state := .EMPTY, is_applied := false })).getBuffer bid =
      some { b with views := b.views.filter (· ≠ vid) } := by
    rw [getBuffer_updView, getBuffer_updBuffer_self, hB, Option.map_some']
  have hS2bk : ∀ kb, kb ≠ bid →
      ((s.updBuffer bid (fun bb => { bb with views := bb.views.filter (· ≠ vid) })).updView
        vid (fun w =>
          { w with data_buffer := none, state := .EMPTY, is_applied := false })).getBuffer kb =
      s.getBuffer kb := by
    intro kb hkb
    rw [getBuffer_updView, getBuffer_updBuffer_ne _ _ _ _ hkb]
  rw [hattach]
  unfold detachAndMaybeDestroy
  rw [hdet]
  simp only [hS2b]
  by_cases hz : (b.views.filter (· ≠ vid)).length = 0
  · have hnum : (Buffer.getNumViews { b with views := b.views.filter (· ≠ vid) } == 0) = true := by
      simp only [Buffer.getNumViews, beq_iff_eq]
      exact hz
    simp only [hnum, if_true, if_pos hz]
    refine ⟨?_, ?_, ?_, ?_⟩
    · rw [getView_destroyBuffer]
      exact hS2v
    · intro k hk
      rw [getView_destroyBuffer]
      exact hS2vk k hk
    · exact getBuffer_destroyBuffer_self _ bid
    · intro kb hkb
      rw [getBuffer_destroyBuffer_ne _ _ _ hkb]
      exact hS2bk kb hkb
  · have hnum : (Buffer.getNumViews { b with views := b.views.filter (· ≠ vid) } == 0) = false := by
      simp only [Buffer.getNumViews, beq_eq_false_iff_ne, ne_eq]
      exact hz
    simp only [hnum, Bool.false_eq_true, if_false, if_neg hz]
    exact ⟨hS2v, hS2vk, hS2b, hS2bk⟩

/-- C6: for a BUFFER view, `attachBuffer(nullptr)` detaches the view and
returns it to EMPTY; while another view remains attached the buffer
survives with its allocation flag untouched and stays retrievable from the
other view; the buffer is destroyed exactly when the detach drops its
attached-view count to zero. -/
theorem C6_detach_buffer_lifecycle (s : DataStore) (i1 i2 bid : Nat) (v1 v2 : View)
    (b : Buffer) (h12 : i1 ≠ i2)
    (hv1 : s.getView i1 = some v1) (hs1 : v1.state = .BUFFER)
    (hb1 : v1.data_buffer = some bid)
    (hv2 : s.getView i2 = some v2) (hs2 : v2.state = .BUFFER)
    (hb2 : v2.data_buffer = some bid)
    (hB : s.getBuffer bid = some b) (hviews : b.views = [i1, i2]) :
    (attachBufferOp s i1 none).getView i1 =
      some { v1 with data_buffer := none, state := .EMPTY, is_applied := false } ∧
    (attachBufferOp s i1 none).getView i2 = some v2 ∧
    (attachBufferOp s i1 none).getBuffer bid = some { b with views := [i2] } ∧
    ({ b with views := [i2] } : Buffer).isAllocated = b.isAllocated ∧
    (attachBufferOp s i1 none).bufferOf v2 = some { b with views := [i2] } ∧
    (attachBufferOp (attachBufferOp s i1 none) i2 none).getBuffer bid = none := by
  have h21 : i2 ≠ i1 := Ne.symm h12
  have hfil1 : b.views.filter (· ≠ i1) = [i2] := by
    rw [hviews]
    simp [List.filter_cons, h21]
  rcases attachNone_spec s i1 bid v1 b hv1 hs1 hb1 hB with ⟨hA1, hA1k, hA1b, _⟩
  rw [hfil1] at hA1b
  simp only [List.length_cons, List.length_nil] at hA1b
  rw [if_neg (by omega)] at hA1b
  have hv2' : (attachBufferOp s i1 none).getView i2 = some v2 := by
    rw [hA1k i2 h21, hv2]
  rcases attachNone_spec (attachBufferOp s i1 none) i2 bid v2
      { b with views := [i2] } hv2' hs2 hb2 hA1b with ⟨_, _, hA2b, _⟩
  have hfil2 : ({ b with views := [i2] } : Buffer).views.filter (· ≠ i2) = [] := by
    simp [List.filter_cons]
  rw [hfil2] at hA2b
  simp only [List.length_nil, if_pos rfl] at hA2b
  refine ⟨hA1, hv2', hA1b, rfl, ?_, hA2b⟩
  unfold DataStore.bufferOf
  rw [hb2]
  exact hA1b

/-- C6 witness: two int32 views on buffer 5; detaching the first leaves the
buffer allocated and reachable from the second; detaching the second
destroys it. -/
theorem C6_detach_buffer_lifecycle_witness :
    (attachBufferOp (⟨[(5, ⟨.int32, 4, true, [0, 1]⟩)],
        [(0, ⟨"a", .BUFFER, ⟨.int32, 4, 0, 4⟩, [4], true, some 5, false⟩),
         (1, ⟨"b", .BUFFER, ⟨.int32, 4, 0, 4⟩, [4], true, some 5, false⟩)]⟩ : DataStore)
      0 none).getView 0 =
      some { (⟨"a", .BUFFER, ⟨.int32, 4, 0, 4⟩, [4], true, some 5, false⟩ : View) with
        data_buffer := none, state := .EMPTY, is_applied := false } ∧
    (attachBufferOp (⟨[(5, ⟨.int32, 4, true, [0, 1]⟩)],
        [(0, ⟨"a", .BUFFER, ⟨.int32, 4, 0, 4⟩, [4], true, some 5, false⟩),
         (1, ⟨"b", .BUFFER, ⟨.int32, 4, 0, 4⟩, [4], true, some 5, false⟩)]⟩ : DataStore)
      0 none).getView 1 =
      some ⟨"b", .BUFFER, ⟨.int32, 4, 0, 4⟩, [4], true, some 5, false⟩ ∧
    (attachBufferOp (⟨[(5, ⟨.int32, 4, true, [0, 1]⟩)],
        [(0, ⟨"a", .BUFFER, ⟨.int32, 4, 0, 4⟩, [4], true, some 5, false⟩),
         (1, ⟨"b", .BUFFER, ⟨.int32, 4, 0, 4⟩, [4], true, some 5, false⟩)]⟩ : DataStore)
      0 none).getBuffer 5 =
      some { (⟨.int32, 4, true, [0, 1]⟩ : Buffer) with views := [1] } ∧
    ({ (⟨.int32, 4, true, [0, 1]⟩ : Buffer) with views := [1] } : Buffer).isAllocated =
      (⟨.int32, 4, true, [0, 1]⟩ : Buffer).isAllocated ∧
    (attachBufferOp (⟨[(5, ⟨.int32, 4, true, [0, 1]⟩)],
        [(0, ⟨"a", .BUFFER, ⟨.int32, 4, 0, 4⟩, [4], true, some 5, false⟩),
         (1, ⟨"b", .BUFFER, ⟨.int32, 4, 0, 4⟩, [4], true, some 5, false⟩)]⟩ : DataStore)
      0 none).bufferOf ⟨"b", .BUFFER, ⟨.int32, 4, 0, 4⟩, [4], true, some 5, false⟩ =
      some { (⟨.int32, 4, true, [0, 1]⟩ : Buffer) with views := [1] } ∧
    (attachBufferOp (attachBufferOp (⟨[(5, ⟨.int32, 4, true, [0, 1]⟩)],
        [(0, ⟨"a", .BUFFER, ⟨.int32, 4, 0, 4⟩, [4], true, some 5, false⟩),
         (1, ⟨"b", .BUFFER, ⟨.int32, 4, 0, 4⟩, [4], true, some 5, false⟩)]⟩ : DataStore)
      0 none) 1 none).getBuffer 5 = none :=
  C6_detach_buffer_lifecycle
    ⟨[(5, ⟨.int32, 4, true, [0, 1]⟩)],
      [(0, ⟨"a", .BUFFER, ⟨.int32, 4, 0, 4⟩, [4], true, some 5, false⟩),
       (1, ⟨"b", .BUFFER, ⟨.int32, 4, 0, 4⟩, [4], true, some 5, false⟩)]⟩
    0 1 5
    ⟨"a", .BUFFER, ⟨.int32, 4, 0, 4⟩, [4], true, some 5, false⟩
    ⟨"b", .BUFFER, ⟨.int32, 4, 0, 4⟩, [4], true, some 5, false⟩
    ⟨.int32, 4, true, [0, 1]⟩
    (by decide) (by decide) rfl rfl (by decide) rfl rfl (by decide) rfl

/-- C2 (amended): the applied flag of a BUFFER view is only ever newly set
by `apply()` passing `isApplyValid`, which guarantees
`0 <= getTotalBytes() <= getBuffer()->getTotalBytes()` at that moment; and
no direct Buffer operation (allocate/reallocate/deallocate) touches any
view's state.  The inequality is NOT preserved as a store invariant: a
buffer-shrinking step (a direct `Buffer::reallocate`, or
`View::deallocate` followed by `View::allocate` under a strided
description) leaves the stale applied flag violating it (see the
counterexample). -/
theorem C2_applied_only_when_fits :
    (∀ (s : DataStore) (vid : Nat) (v v' : View),
      s.getView vid = some v →
      (applyOp s vid).getView vid = some v' →
      v.is_applied = false → v'.is_applied = true → v'.state = .BUFFER →
      ∃ b, (applyOp s vid).bufferOf v' = some b ∧
        0 ≤ v'.getTotalBytes ∧ v'.getTotalBytes ≤ b.getTotalBytes) ∧
    (∀ (s : DataStore) (bid : Nat) (t : TypeID) (n : Int) (k : Nat),
      (bufferAllocateOp s bid t n).getView k = s.getView k) ∧
    (∀ (s : DataStore) (bid : Nat) (n : Int) (k : Nat),
      (bufferReallocateOp s bid n).getView k = s.getView k) ∧
    (∀ (s : DataStore) (bid k : Nat),
      (bufferDeallocateOp s bid).getView k = s.getView k) := by
  refine ⟨?_, fun s bid t n k => rfl, fun s bid n k => rfl, fun s bid k => rfl⟩
  intro s vid v v' hv h' hfa hta hst
  rw [applyOp_getView, hv, Option.map_some'] at h'
  by_cases hval : isApplyValid s v
  · rw [if_pos hval] at h'
    injection h' with h'
    subst h'
    have hvst : v.state = .BUFFER := hst
    have hGB : ∀ kb, (applyOp s vid).getBuffer kb = s.getBuffer kb :=
      fun kb => getBuffer_of_buffers_eq (applyOp_buffers s vid) kb
    unfold isApplyValid View.isApplyValidWith at hval
    rw [hvst] at hval
    by_cases hd : v.isDescribed
    · simp only [hd, Bool.not_true, Bool.false_eq_true, if_false] at hval
      cases hbo : s.bufferOf v with
      | none =>
        rw [hbo] at hval
        simp at hval
      | some bb =>
        rw [hbo] at hval
        simp only [Bool.and_eq_true, decide_eq_true_eq] at hval
        refine ⟨bb, ?_, hval.1, hval.2⟩
        unfold DataStore.bufferOf at hbo ⊢
        cases hdb : v.data_buffer with
        | none =>
          rw [hdb] at hbo
          simp at hbo
        | some bid0 =>
          rw [hdb] at hbo
          simp only [Option.some_bind] at hbo ⊢
          rw [hGB bid0]
          exact hbo
    · simp only [hd] at hval
      simp at hval
  · rw [if_neg hval] at h'
    injection h' with h'
    subst h'
    rw [hfa] at hta
    exact absurd hta (by simp)

/-- C2 witness: applying a described view to a matching 4-element buffer
newly sets the applied flag, and the byte inequality holds at that moment
(16 bytes in a 16-byte buffer). -/
theorem C2_applied_only_when_fits_witness :
    ∃ b, (applyOp (⟨[(0, ⟨.int32, 4, true, [0]⟩)],
        [(0, ⟨"v", .BUFFER, ⟨.int32, 4, 0, 4⟩, [4], false, some 0, false⟩)]⟩ : DataStore)
        0).bufferOf ⟨"v", .BUFFER, ⟨.int32, 4, 0, 4⟩, [4], true, some 0, false⟩ = some b ∧
      0 ≤ View.getTotalBytes ⟨"v", .BUFFER, ⟨.int32, 4, 0, 4⟩, [4], true, some 0, false⟩ ∧
      View.getTotalBytes ⟨"v", .BUFFER, ⟨.int32, 4, 0, 4⟩, [4], true, some 0, false⟩ ≤
        b.getTotalBytes :=
  C2_applied_only_when_fits.1
    ⟨[(0, ⟨.int32, 4, true, [0]⟩)],
      [(0, ⟨"v", .BUFFER, ⟨.int32, 4, 0, 4⟩, [4], false, some 0, false⟩)]⟩ 0
    ⟨"v", .BUFFER, ⟨.int32, 4, 0, 4⟩, [4], false, some 0, false⟩
    ⟨"v", .BUFFER, ⟨.int32, 4, 0, 4⟩, [4], true, some 0, false⟩
    (by decide) (by decide) rfl rfl rfl

/-- C2 counterexample: a view applied with a strided description (28 bytes)
on an 8-element (32-byte) int32 buffer satisfies the invariant; a direct
`Buffer::reallocate` to 4 elements (16 bytes) breaks it, and so does the
pure View-operation sequence `deallocate()` then `allocate()` (the buffer
is re-allocated at the compact 4-element size while the stale applied flag
survives the failed guarded re-apply).  The invariant is not preserved by
every public View and Buffer operation. -/
theorem C2_counterexample :
    bytesInv (applyTNOS (attachBufferOp (bufferAllocateOp
      ((createBufferOp ⟨[], [(0, freshView "v")]⟩).1) 0 .int32 8) 0 (some 0))
      0 .int32 4 0 2) = true ∧
    bytesInv (bufferReallocateOp (applyTNOS (attachBufferOp (bufferAllocateOp
      ((createBufferOp ⟨[], [(0, freshView "v")]⟩).1) 0 .int32 8) 0 (some 0))
      0 .int32 4 0 2) 0 4) = false ∧
    bytesInv (deallocateOp (applyTNOS (attachBufferOp (bufferAllocateOp
      ((createBufferOp ⟨[], [(0, freshView "v")]⟩).1) 0 .int32 8) 0 (some 0))
      0 .int32 4 0 2) 0) = true ∧
    bytesInv (allocateOp (deallocateOp (applyTNOS (attachBufferOp (bufferAllocateOp
      ((createBufferOp ⟨[], [(0, freshView "v")]⟩).1) 0 .int32 8) 0 (some 0))
      0 .int32 4 0 2) 0) 0) = false := by
  refine ⟨by decide, by decide, by decide, by decide⟩

theorem mem_insertIdx (x k : Nat) (l : List Nat) :
    x ∈ insertIdx k l ↔ x ∈ l ∨ x = k := by
  unfold insertIdx
  by_cases h : k ∈ l
  · rw [if_pos h]
    constructor
    · exact Or.inl
    · rintro (hx | hx)
      · exact hx
      · rw [hx]
        exact h
  · rw [if_neg h]
    simp [List.mem_append]

theorem lookupK_exportedBuffers_none (s : DataStore) (idxs : List Nat) (b0 : Nat)
    (h : b0 ∉ idxs) : lookupK (exportedBuffers s idxs) b0 = none := by
  unfold exportedBuffers
  have key : ∀ (l : List (Nat × Buffer)),
      lookupK (l.filter (fun p => p.1 ∈ idxs)) b0 = none := by
    intro l
    induction l with
    | nil => rfl
    | cons p rest ih =>
      by_cases hq : p.1 ∈ idxs
      · have hkeep : (p :: rest).filter (fun p => p.1 ∈ idxs) =
            p :: rest.filter (fun p => p.1 ∈ idxs) := by
          simp [List.filter_cons, hq]
        rw [hkeep, lookupK_cons]
        have hne : ¬ p.1 = b0 := by
          intro hEq
          rw [hEq] at hq
          exact h hq
        rw [if_neg hne]
        exact ih
      · have hdrop : (p :: rest).filter (fun p => p.1 ∈ idxs) =
            rest.filter (fun p => p.1 ∈ idxs) := by
          simp [List.filter_cons, hq]
        rw [hdrop]
        exact ih
  exact key s.buffers

/-- C1: export-then-import preserves buffer-sharing topology exactly.  Two
views attached to the same buffer before export are restored, through the
old-index-to-new-index map, as two views attached to one common
newly-indexed buffer (`getBuffer()` resolves to the same buffer slot for
both, not to two value-equal copies); and a buffer whose index was never
referenced during the export walk is excluded from the exported buffer
set. -/
theorem C1_export_import_buffer_sharing
    (v1 v2 : View) (bid : Nat) (l0 : List Nat)
    (hs1 : v1.state = .BUFFER) (hb1 : v1.data_buffer = some bid)
    (hs2 : v2.state = .BUFFER) (hb2 : v2.data_buffer = some bid)
    (t : DataStore) (j1 j2 nid : Nat) (w1 w2 : View) (nb : Buffer)
    (bmap : Nat → Option Nat) (hmap : bmap bid = some nid) (hj : j1 ≠ j2)
    (hw1 : t.getView j1 = some w1) (hw2 : t.getView j2 = some w2)
    (hnb : t.getBuffer nid = some nb) :
    (∃ u1 u2 bshared,
      (importFromOp (importFromOp t j1 (v1.exportTo l0).1 bmap) j2
          (v2.exportTo (v1.exportTo l0).2).1 bmap).getView j1 = some u1 ∧
      (importFromOp (importFromOp t j1 (v1.exportTo l0).1 bmap) j2
          (v2.exportTo (v1.exportTo l0).2).1 bmap).getView j2 = some u2 ∧
      u1.state = .BUFFER ∧ u2.state = .BUFFER ∧
      u1.data_buffer = some nid ∧ u2.data_buffer = u1.data_buffer ∧
      (importFromOp (importFromOp t j1 (v1.exportTo l0).1 bmap) j2
          (v2.exportTo (v1.exportTo l0).2).1 bmap).bufferOf u1 = some bshared ∧
      (importFromOp (importFromOp t j1 (v1.exportTo l0).1 bmap) j2
          (v2.exportTo (v1.exportTo l0).2).1 bmap).bufferOf u2 = some bshared) ∧
    (∀ (s : DataStore) (b0 : Nat), b0 ∉ l0 → b0 ≠ bid →
      lookupK (exportedBuffers s (v2.exportTo (v1.exportTo l0).2).2) b0 = none) := by
  have hn1 := exportTo_buffer_node v1 bid l0 hs1 hb1
  have hn2 := exportTo_buffer_node v2 bid (v1.exportTo l0).2 hs2 hb2
  constructor
  · rcases importFromOp_buffer_node t j1 w1 (v1.exportTo l0).1 bmap bid nid nb
        hw1 hn1.1 hn1.2.1 hmap hnb with
      ⟨u1, b1, hU1, hU1st, hU1db, hB1, hK1, _⟩
    have hw2' : (importFromOp t j1 (v1.exportTo l0).1 bmap).getView j2 = some w2 := by
      rw [hK1 j2 (Ne.symm hj), hw2]
    rcases importFromOp_buffer_node (importFromOp t j1 (v1.exportTo l0).1 bmap) j2 w2
        (v2.exportTo (v1.exportTo l0).2).1 bmap bid nid b1
        hw2' hn2.1 hn2.2.1 hmap hB1 with
      ⟨u2, b2, hU2, hU2st, hU2db, hB2, hK2, _⟩
    refine ⟨u1, u2, b2, ?_, hU2, hU1st, hU2st, hU1db, ?_, ?_, ?_⟩
    · rw [hK2 j1 hj, hU1]
    · rw [hU2db, hU1db]
    · unfold DataStore.bufferOf
      rw [hU1db]
      simpa using hB2
    · unfold DataStore.bufferOf
      rw [hU2db]
      simpa using hB2
  · intro s b0 h0 hbid
    apply lookupK_exportedBuffers_none
    rw [hn2.2.2.2, hn1.2.2.2]
    intro hmem
    rcases (mem_insertIdx b0 bid _).mp hmem with hmem1 | hmem1
    · rcases (mem_insertIdx b0 bid l0).mp hmem1 with hmem2 | hmem2
      · exact h0 hmem2
      · exact hbid hmem2
    · exact hbid hmem1

/-- C1 witness: two views sharing old buffer 5 are exported and re-imported
through the map `5 ↦ 9` into a fresh store; both restored views resolve
`getBuffer()` to the same buffer slot 9, and old buffer 7, never
referenced, is excluded from the exported buffer set. -/
theorem C1_export_import_buffer_sharing_witness :
    (∃ u1 u2 bshared,
      (importFromOp (importFromOp
          (⟨[(9, ⟨.int32, 4, true, []⟩)], [(0, freshView "p"), (1, freshView "q")]⟩ :
            DataStore) 0
          ((⟨"a", .BUFFER, ⟨.int32, 4, 0, 4⟩, [4], true, some 5, false⟩ : View).exportTo
            []).1 (fun k => if k = 5 then some 9 else none)) 1
          ((⟨"b", .BUFFER, ⟨.int32, 4, 0, 4⟩, [4], true, some 5, false⟩ : View).exportTo
            ((⟨"a", .BUFFER, ⟨.int32, 4, 0, 4⟩, [4], true, some 5, false⟩ : View).exportTo
              []).2).1
          (fun k => if k = 5 then some 9 else none)).getView 0 = some u1 ∧
      (importFromOp (importFromOp
          (⟨[(9, ⟨.int32, 4, true, []⟩)], [(0, freshView "p"), (1, freshView "q")]⟩ :
            DataStore) 0
          ((⟨"a", .BUFFER, ⟨.int32, 4, 0, 4⟩, [4], true, some 5, false⟩ : View).exportTo
            []).1 (fun k => if k = 5 then some 9 else none)) 1
          ((⟨"b", .BUFFER, ⟨.int32, 4, 0, 4⟩, [4], true, some 5, false⟩ : View).exportTo
            ((⟨"a", .BUFFER, ⟨.int32, 4, 0, 4⟩, [4], true, some 5, false⟩ : View).exportTo
              []).2).1
          (fun k => if k = 5 then some 9 else none)).getView 1 = some u2 ∧
      u1.state = .BUFFER ∧ u2.state = .BUFFER ∧
      u1.data_buffer = some 9 ∧ u2.data_buffer = u1.data_buffer ∧
      (importFromOp (importFromOp
          (⟨[(9, ⟨.int32, 4, true, []⟩)], [(0, freshView "p"), (1, freshView "q")]⟩ :
            DataStore) 0
          ((⟨"a", .BUFFER, ⟨.int32, 4, 0, 4⟩, [4], true, some 5, false⟩ : View).exportTo
            []).1 (fun k => if k = 5 then some 9 else none)) 1
          ((⟨"b", .BUFFER, ⟨.int32, 4, 0, 4⟩, [4], true, some 5, false⟩ : View).exportTo
            ((⟨"a", .BUFFER, ⟨.int32, 4, 0, 4⟩, [4], true, some 5, false⟩ : View).exportTo
              []).2).1
          (fun k => if k = 5 then some 9 else none)).bufferOf u1 = some bshared ∧
      (importFromOp (importFromOp
          (⟨[(9, ⟨.int32, 4, true, []⟩)], [(0, freshView "p"), (1, freshView "q")]⟩ :
            DataStore) 0
          ((⟨"a", .BUFFER, ⟨.int32, 4, 0, 4⟩, [4], true, some 5, false⟩ : View).exportTo
            []).1 (fun k => if k = 5 then some 9 else none)) 1
          ((⟨"b", .BUFFER, ⟨.int32, 4, 0, 4⟩, [4], true, some 5, false⟩ : View).exportTo
            ((⟨"a", .BUFFER, ⟨.int32, 4, 0, 4⟩, [4], true, some 5, false⟩ : View).exportTo
              []).2).1
          (fun k => if k = 5 then some 9 else none)).bufferOf u2 = some bshared) ∧
    lookupK (exportedBuffers
      (⟨[(5, ⟨.int32, 4, true, [0, 1]⟩), (7, ⟨.int64, 2, true, []⟩)], []⟩ : DataStore)
      ((⟨"b", .BUFFER, ⟨.int32, 4, 0, 4⟩, [4], true, some 5, false⟩ : View).exportTo
        ((⟨"a", .BUFFER, ⟨.int32, 4, 0, 4⟩, [4], true, some 5, false⟩ : View).exportTo
          []).2).2) 7 = none :=
  ⟨(C1_export_import_buffer_sharing
      ⟨"a", .BUFFER, ⟨.int32, 4, 0, 4⟩, [4], true, some 5, false⟩
      ⟨"b", .BUFFER, ⟨.int32, 4, 0, 4⟩, [4], true, some 5, false⟩ 5 []
      rfl rfl rfl rfl
      ⟨[(9, ⟨.int32, 4, true, []⟩)], [(0, freshView "p"), (1, freshView "q")]⟩
      0 1 9 (freshView "p") (freshView "q") ⟨.int32, 4, true, []⟩
      (fun k => if k = 5 then some 9 else none) (by decide) (by decide)
      (by decide) (by decide) (by decide)).1,
   (C1_export_import_buffer_sharing
      ⟨"a", .BUFFER, ⟨.int32, 4, 0, 4⟩, [4], true, some 5, false⟩
      ⟨"b", .BUFFER, ⟨.int32, 4, 0, 4⟩, [4], true, some 5, false⟩ 5 []
      rfl rfl rfl rfl
      ⟨[(9, ⟨.int32, 4, true, []⟩)], [(0, freshView "p"), (1, freshView "q")]⟩
      0 1 9 (freshView "p") (freshView "q") ⟨.int32, 4, true, []⟩
      (fun k => if k = 5 then some 9 else none) (by decide) (by decide)
      (by decide) (by decide) (by decide)).2
     ⟨[(5, ⟨.int32, 4, true, [0, 1]⟩), (7, ⟨.int64, 2, true, []⟩)], []⟩ 7
     (by decide) (by decide)⟩
